import Mathlib

/-!
Verification of the openCEM multi-year simulation orchestrator
(`cemo/multi.py` and `cemo/jsonify.py`).

The Python source is shallowly embedded: pure helper functions become Lean
functions over `ℚ`, `ℤ`, `String` and lists; `configparser`/property-setter
validation becomes an `Except`-valued validation function; the template
generator becomes a pure `String`-valued function of the configuration, the
template file contents and the override tables; the per-year solve loop
becomes a pure fold parameterised by the external model builder / solver /
clustering collaborators.  Machine floats from the source are modelled as
exact rationals; Python `round` (banker's rounding) is modelled explicitly.
-/

namespace OpenCEM

/-! ## Python primitives -/

/-- Python list indexing `l[i]`, including negative-index wrap-around:
`l[-1]` is the last element.  Returns `none` where Python raises
`IndexError`. -/
def pyGet {α : Type} (l : List α) (i : ℤ) : Option α :=
  let j : ℤ := if i < 0 then (l.length : ℤ) + i else i
  if j < 0 then none else l.get? j.toNat

/-- Recursion core of `pyReplace`; the fuel argument makes the recursion
structural (each step consumes at least one character, so fuel equal to the
input length never runs out). -/
def replaceAux (pat rep : List Char) : ℕ → List Char → List Char
  | _, [] => []
  | 0, s => s
  | fuel + 1, c :: rest =>
      if pat.isPrefixOf (c :: rest) then
        rep ++ replaceAux pat rep fuel ((c :: rest).drop pat.length)
      else c :: replaceAux pat rep fuel rest

/-- Python `str.replace`: replace every non-overlapping occurrence of `pat`,
scanning left to right.  (The template substitution never uses an empty
pattern; an empty pattern returns the string unchanged.) -/
def pyReplace (s pat rep : String) : String :=
  if pat.isEmpty then s
  else ⟨replaceAux pat.data rep.data s.data.length s.data⟩

/-- Python `round` to an integer: round half to even (banker's rounding). -/
def pyRoundInt (q : ℚ) : ℤ :=
  let f : ℤ := ⌊q⌋
  let r : ℚ := q - f
  if r < 1/2 then f
  else if r > 1/2 then f + 1
  else if f % 2 = 0 then f else f + 1

/-- Python `round(x, 2)`. -/
def pyRound2 (q : ℚ) : ℚ := (pyRoundInt (q * 100) : ℚ) / 100

/-- Zero-pad a natural number to two digits, as in `datetime` rendering. -/
def pad2 (n : ℕ) : String :=
  if n < 10 then "0" ++ toString n else toString n

/-- Python `str(datetime.datetime(y, mo, d, h, mi, s))`:
`"YYYY-MM-DD HH:MM:SS"`. -/
def fmtDateTime (y : ℤ) (mo d h mi s : ℕ) : String :=
  toString y ++ "-" ++ pad2 mo ++ "-" ++ pad2 d ++ " "
    ++ pad2 h ++ ":" ++ pad2 mi ++ ":" ++ pad2 s

/-- Render the integer `m` with an implied decimal point `k` digits from the
right (`renderDec 5 1 = "0.5"`, `renderDec 123 2 = "1.23"`). -/
def renderDec (m : ℤ) (k : ℕ) : String :=
  let s := toString m.natAbs
  let s := if s.length < k + 1 then String.mk (List.replicate (k + 1 - s.length) '0') ++ s else s
  (if m < 0 then "-" else "") ++ s.take (s.length - k) ++ "." ++ s.drop (s.length - k)

/-- Smallest power of ten clearing the denominator of `q` (for decimal
rendering of the finitely-representable values arising from JSON floats). -/
def decExp (q : ℚ) : Option (ℤ × ℕ) :=
  (List.range 40).findSome? (fun k => if (q * 10 ^ k).den = 1 then some ((q * 10 ^ k).num, k) else none)

/-- Python `str` of a JSON-decoded number: integers render bare, finite
decimals render with a decimal point (`str(0.5) == "0.5"`). -/
def pyNumStr (q : ℚ) : String :=
  if q.den = 1 then toString q.num
  else
    match decExp q with
    | some (m, k) => renderDec m k
    | none => toString q.num ++ "/" ++ toString q.den

/-- Left-pad a string with spaces to width `w`. -/
def padLeft (s : String) (w : ℕ) : String :=
  String.mk (List.replicate (w - s.length) ' ') ++ s

/-- Python `'%10.2f' % x`: two decimal places, right-aligned to width 10. -/
def fmtF10_2 (q : ℚ) : String :=
  padLeft (renderDec (pyRoundInt (q * 100)) 2) 10

/-- `pandas.DataFrame.to_string(header=False, index=False)`: every column is
right-aligned to its widest cell, cells are joined by a single space and rows
by newlines. -/
def dfToString (rows : List (List String)) : String :=
  let ncols := (rows.map List.length).foldr max 0
  let width : ℕ → ℕ := fun j => (rows.map (fun r => (r.getD j "").length)).foldr max 0
  String.intercalate "\n"
    (rows.map (fun r => String.intercalate " " ((List.range ncols).map (fun j => padLeft (r.getD j "") (width j)))))

/-- JSON values, as produced by the result marshalling and artifact files. -/
inductive JValue where
  | null : JValue
  | bool (b : Bool) : JValue
  | num (q : ℚ) : JValue
  | str (s : String) : JValue
  | arr (xs : List JValue) : JValue
  | obj (kvs : List (String × JValue)) : JValue

/-- Shorthand for an integer JSON number. -/
def jInt (z : ℤ) : JValue := .num z

/-- Top-level keys of a JSON object (empty for non-objects). -/
def jKeys : JValue → List String
  | .obj kvs => kvs.map (·.1)
  | _ => []

/-- Look up a key in a JSON object. -/
def jLookup (v : JValue) (k : String) : Option JValue :=
  match v with
  | .obj kvs => (kvs.find? (fun p => p.1 == k)).map (·.2)
  | _ => none

/-- Python `dict.update` on an insertion-ordered association list: existing
keys are overwritten in place, new keys are appended. -/
def pyUpdate (d kv : List (String × JValue)) : List (String × JValue) :=
  kv.foldl (fun acc p =>
    if acc.any (fun q => q.1 == p.1) then acc.map (fun q => if q.1 = p.1 then p else q)
    else acc ++ [p]) d

/-! ## `cemo.multi` helper functions -/

/-- The `(zone, tech)` pairs of a technology-set dictionary in insertion /
iteration order (`for i in techset.keys(): for j in techset[i]`). -/
def techPairs (techset : List (ℤ × List ℤ)) : List (ℤ × ℤ) :=
  techset.flatMap (fun zl => zl.2.map (fun j => (zl.1, j)))

/-- Python `str` of an `(Int, Int)` tuple. -/
def pyTupleStr (p : ℤ × ℤ) : String :=
  "(" ++ toString p.1 ++ ", " ++ toString p.2 ++ ")"

/-- `cemo.multi.sqllist`: generate a technology set for an SQL statement,
with the `(99, 99)` placeholder preserving query syntax when empty. -/
def sqllist (techset : List (ℤ × List ℤ)) : String :=
  let out := techPairs techset
  let out := if out.isEmpty then [((99 : ℤ), (99 : ℤ))] else out
  "(" ++ String.intercalate ", " (out.map pyTupleStr) ++ ")"

/-- `cemo.multi.dclist`: generate a technology set for a data command
statement. -/
def dclist (techset : List (ℤ × List ℤ)) : String :=
  (techPairs techset).foldl (fun out p => out ++ toString p.1 ++ " " ++ toString p.2 ++ "\n") ""

/-- `cemo.multi.roundup`: round clustering capacity results to 2 decimal
places, snapping small negative solver noise in `(-1e-6, 0)` to `0` and
letting other values (including larger negatives) through to `round`. -/
def roundup (cap : ℚ) : ℚ :=
  if cap > -(1/1000000) ∧ cap < 0 then 0
  else pyRound2 cap

/-! ## Configuration model (`SolveTemplate.__init__` and its validating
property setters) -/

/-- Modelled from the spec: the fixed technology-category classification
lists of `cemo.const` (`cemo/const.py` is not among the provided sources;
§3/§4.2 describe them as global constant sets of technology identifiers,
overridable only for regions/zones/all_tech). -/
structure Consts where
  FUEL_TECH : List ℤ
  COMMIT_TECH : List ℤ
  RE_GEN_TECH : List ℤ
  DISP_GEN_TECH : List ℤ
  RE_DISP_GEN_TECH : List ℤ
  HYB_TECH : List ℤ
  GEN_TECH : List ℤ
  STOR_TECH : List ℤ
  RETIRE_TECH : List ℤ
  NOBUILD_TECH : List ℤ

/-- The scenario configuration as decoded from the config file
(`json.loads` of each field), before the validating property setters run.
`region_ret_ratio` and `all_tech_per_zone` are insertion-ordered dicts,
modelled as association lists. -/
structure RawConfig where
  name : String
  years : List ℤ
  nem_ret_ratio : Option (List ℚ)
  nem_ret_gwh : Option (List ℚ)
  region_ret_ratio : Option (List (ℤ × List ℚ))
  emitlimit : Option (List ℚ)
  nem_disp_ratio : Option (List ℚ)
  nem_re_disp_ratio : Option (List ℚ)
  discountrate : ℚ
  cost_emit : Option (List ℚ)
  description : Option String
  template : String
  custom_costs : Option String
  exogenous_capacity : Option String
  cluster : Bool
  cluster_max_d : ℤ
  regions : List ℤ
  zones : List ℤ
  all_tech : List ℤ
  all_tech_per_zone : List (ℤ × List ℤ)

/-- The validated configuration held by a constructed `SolveTemplate`,
including the per-category technology dictionaries derived by
`tracetechs`. -/
structure Config where
  name : String
  years : List ℤ
  nem_ret_ratio : Option (List ℚ)
  nem_ret_gwh : Option (List ℚ)
  region_ret_ratio : Option (List (ℤ × List ℚ))
  emitlimit : Option (List ℚ)
  nem_disp_ratio : Option (List ℚ)
  nem_re_disp_ratio : Option (List ℚ)
  discountrate : ℚ
  cost_emit : Option (List ℚ)
  description : Option String
  template : String
  custom_costs : Option String
  exogenous_capacity : Option String
  cluster : Bool
  cluster_max_d : ℤ
  regions : List ℤ
  zones : List ℤ
  all_tech : List ℤ
  all_tech_per_zone : List (ℤ × List ℤ)
  tmpdir : String
  solver : String
  fueltech : List (ℤ × List ℤ)
  committech : List (ℤ × List ℤ)
  regentech : List (ℤ × List ℤ)
  dispgentech : List (ℤ × List ℤ)
  redispgentech : List (ℤ × List ℤ)
  hybtech : List (ℤ × List ℤ)
  gentech : List (ℤ × List ℤ)
  stortech : List (ℤ × List ℤ)
  retiretech : List (ℤ × List ℤ)

/-- The `Years` property setter: `max(y) > 2050` and `min(y) < 2018` each
raise (Python `max`/`min` themselves raise on an empty list), then the list
is stored sorted ascending. -/
def setYears (y : List ℤ) : Except String (List ℤ) :=
  match y.max?, y.min? with
  | some mx, some mn =>
    if mx > 2050 then .error "openCEM-Years: Last full year of data is fy2050"
    else if mn < 2018 then .error "openCEM-Years: No historical data available"
    else .ok (y.insertionSort (· ≤ ·))
  | _, _ => .error "ValueError: max() arg is an empty sequence"

/-- The `discountrate` property setter. -/
def set_discountrate (data : ℚ) : Except String ℚ :=
  if data < 0 ∨ data > 1 then .error "openCEM-discountrate: Value must be between 0 and 1"
  else .ok data

/-- The `cost_emit` property setter. -/
def set_cost_emit (years : List ℤ) (data : Option (List ℚ)) : Except String (Option (List ℚ)) :=
  match data with
  | none => .ok none
  | some l =>
    if l.length ≠ years.length then .error "openCEM-cost_emit: List length does not match Years list"
    else if l.any (fun x => decide (x < 0)) then .error "openCEM-cost_emit: Value must be greater than 0"
    else .ok (some l)

/-- The `nem_ret_ratio` property setter. -/
def set_nem_ret_ratio (years : List ℤ) (data : Option (List ℚ)) : Except String (Option (List ℚ)) :=
  match data with
  | none => .ok none
  | some l =>
    if l.length ≠ years.length then .error "openCEM-nem_ret_ratio: List length does not match Years list"
    else if l.any (fun x => decide (x < 0)) || l.any (fun x => decide (x > 1)) then
      .error "openCEM-nem_ret_ratio: List element(s) outside range [0,1]"
    else .ok (some l)

/-- The `nem_ret_gwh` property setter (the range check only rejects negative
values, despite its message). -/
def set_nem_ret_gwh (years : List ℤ) (data : Option (List ℚ)) : Except String (Option (List ℚ)) :=
  match data with
  | none => .ok none
  | some l =>
    if l.length ≠ years.length then .error "openCEM-nem_ret_gwh: List length does not match Years list"
    else if l.any (fun x => decide (x < 0)) then
      .error "openCEM-nem_ret_gwh: List element(s) outside range [0,1]"
    else .ok (some l)

/-- Per-region check loop of the `region_ret_ratio` property setter
(`for d in data`, in dict insertion order). -/
def checkRegionSeries (years : List ℤ) : List (ℤ × List ℚ) → Except String Unit
  | [] => .ok ()
  | (d, l) :: rest =>
    if l.length ≠ years.length then
      .error ("openCEM-region_ret_ratio: List " ++ toString d ++ " length does not match Years list")
    else if l.any (fun x => decide (x < 0)) || l.any (fun x => decide (x > 1)) then
      .error ("openCEM-region_ret_ratio: Element(s) in list " ++ toString d ++ " outside range [0,1]")
    else checkRegionSeries years rest

/-- The `region_ret_ratio` property setter. -/
def set_region_ret_ratio (years : List ℤ) (data : Option (List (ℤ × List ℚ))) :
    Except String (Option (List (ℤ × List ℚ))) :=
  match data with
  | none => .ok none
  | some d => do
    checkRegionSeries years d
    .ok (some d)

/-- The `emitlimit` property setter. -/
def set_emitlimit (years : List ℤ) (data : Option (List ℚ)) : Except String (Option (List ℚ)) :=
  match data with
  | none => .ok none
  | some l =>
    if l.length ≠ years.length then .error "openCEM-emitlimit: List %s length does not match Years list"
    else if l.any (fun x => decide (x < 0)) then
      .error "openCEM-emitlimit: Element(s) in list must be positive"
    else .ok (some l)

/-- The `nem_disp_ratio` property setter. -/
def set_nem_disp_ratio (years : List ℤ) (data : Option (List ℚ)) : Except String (Option (List ℚ)) :=
  match data with
  | none => .ok none
  | some l =>
    if l.length ≠ years.length then .error "openCEM-nem_disp_ratio: List %s length does not match Years list"
    else if l.any (fun x => decide (x < 0)) || l.any (fun x => decide (x > 1)) then
      .error "openCEM-nem_disp_ratio: Element(s) in list must be between 0 and 1"
    else .ok (some l)

/-- The `nem_re_disp_ratio` property setter. -/
def set_nem_re_disp_ratio (years : List ℤ) (data : Option (List ℚ)) : Except String (Option (List ℚ)) :=
  match data with
  | none => .ok none
  | some l =>
    if l.length ≠ years.length then .error "openCEM-nem_re_disp_ratio: List %s length does not match Years list"
    else if l.any (fun x => decide (x < 0)) || l.any (fun x => decide (x > 1)) then
      .error "openCEM-nem_re_disp_ratio: Element(s) in list must be between 0 and 1"
    else .ok (some l)

/-- The `Template` property setter (`os.path.isfile` is the abstract
file-system oracle `fs`). -/
def set_Template (fs : String → Bool) (a : String) : Except String String :=
  if fs a then .ok a else .error "openCEM-Template: File not found"

/-- The `custom_costs` property setter. -/
def set_custom_costs (fs : String → Bool) (a : Option String) : Except String (Option String) :=
  match a with
  | none => .ok none
  | some p => if fs p then .ok (some p) else .error "openCEM-custom_costs: File not found"

/-- The `exogenous_capacity` property setter. -/
def set_exogenous_capacity (fs : String → Bool) (a : Option String) : Except String (Option String) :=
  match a with
  | none => .ok none
  | some p => if fs p then .ok (some p) else .error "openCEM-exogenous_capacity: File not found"

/-- One zone entry of `tracetechs`: the zone's technology list filtered by a
category classification list. -/
def traceFilter (cat : List ℤ) (atpz : List (ℤ × List ℤ)) : List (ℤ × List ℤ) :=
  atpz.map (fun zl => (zl.1, zl.2.filter (fun j => decide (j ∈ cat))))

/-- `SolveTemplate.__init__`: run every validating property setter in source
order and assemble the validated configuration (including `tracetechs`).
Any raised `ValueError`/`OSError` aborts construction, so no partially
validated object is ever exposed. -/
def validate (fs : String → Bool) (tmpdir solver : String) (consts : Consts)
    (raw : RawConfig) : Except String Config := do
  let years ← setYears raw.years
  let nrr ← set_nem_ret_ratio years raw.nem_ret_ratio
  let nrg ← set_nem_ret_gwh years raw.nem_ret_gwh
  let rrr ← set_region_ret_ratio years raw.region_ret_ratio
  let el ← set_emitlimit years raw.emitlimit
  let ndr ← set_nem_disp_ratio years raw.nem_disp_ratio
  let nrdr ← set_nem_re_disp_ratio years raw.nem_re_disp_ratio
  let dr ← set_discountrate raw.discountrate
  let ce ← set_cost_emit years raw.cost_emit
  let tpl ← set_Template fs raw.template
  let cc ← set_custom_costs fs raw.custom_costs
  let exo ← set_exogenous_capacity fs raw.exogenous_capacity
  .ok {
    name := raw.name
    years := years
    nem_ret_ratio := nrr
    nem_ret_gwh := nrg
    region_ret_ratio := rrr
    emitlimit := el
    nem_disp_ratio := ndr
    nem_re_disp_ratio := nrdr
    discountrate := dr
    cost_emit := ce
    description := raw.description
    template := tpl
    custom_costs := cc
    exogenous_capacity := exo
    cluster := raw.cluster
    cluster_max_d := raw.cluster_max_d
    regions := raw.regions
    zones := raw.zones
    all_tech := raw.all_tech
    all_tech_per_zone := raw.all_tech_per_zone
    tmpdir := tmpdir
    solver := solver
    fueltech := traceFilter consts.FUEL_TECH raw.all_tech_per_zone
    committech := traceFilter consts.COMMIT_TECH raw.all_tech_per_zone
    regentech := traceFilter consts.RE_GEN_TECH raw.all_tech_per_zone
    dispgentech := traceFilter consts.DISP_GEN_TECH raw.all_tech_per_zone
    redispgentech := traceFilter consts.RE_DISP_GEN_TECH raw.all_tech_per_zone
    hybtech := traceFilter consts.HYB_TECH raw.all_tech_per_zone
    gentech := traceFilter consts.GEN_TECH raw.all_tech_per_zone
    stortech := traceFilter consts.STOR_TECH raw.all_tech_per_zone
    retiretech := traceFilter consts.RETIRE_TECH raw.all_tech_per_zone }

/-! ## Override tables and per-year clause generation -/

/-- One row of the exogenous-capacity override table
(columns `name, tech, zone, year, value`). -/
structure ExoRow where
  name : String
  tech : ℤ
  zone : ℤ
  year : ℤ
  value : ℚ
deriving DecidableEq

/-- One row of the custom-cost override table (columns
`name, tech, zone, <year columns…>`; a missing cell for a year column is a
`NaN` dropped by `dropna`, so cells are an association list). -/
structure CustomRow where
  name : String
  tech : ℤ
  zone : ℤ
  cells : List (ℤ × ℚ)

/-- The custom-cost table together with its year-column headers
(`year in costs.columns`). -/
structure CustomTable where
  cols : List ℤ
  rows : List CustomRow

/-- Iteration order of the `keywords` dict in `produce_exogenous_capacity`. -/
def exoKeywords : List String :=
  ["gen_cap_exo", "stor_cap_exo", "hyb_cap_exo", "ret_gen_cap_exo"]

/-- `self.Years[self.Years.index(year) - 1]` as written in
`produce_exogenous_capacity` and `carryforwardcap`: for the first configured
year (`index == 0`) Python's negative indexing makes this the LAST configured
year. -/
def pyPrevYear (years : List ℤ) (year : ℤ) : ℤ :=
  (pyGet years ((years.indexOf year : ℤ) - 1)).getD 0

/-- The pandas boolean-mask filter of `produce_exogenous_capacity` for one
override category. -/
def exoFilter (cfg : Config) (table : List ExoRow) (prevyear year : ℤ) (key : String) : List ExoRow :=
  table.filter (fun r =>
    decide (r.year > prevyear) && decide (r.year ≤ year) && decide (r.name = key) &&
    decide (r.tech ∈ cfg.all_tech) && decide (r.zone ∈ cfg.zones))

/-- All exogenous-capacity rows selected for `year`, in emission order
(categories in `keywords` order, rows in table order within a category). -/
def exoSelectedRows (cfg : Config) (table : List ExoRow) (year : ℤ) : List ExoRow :=
  let prevyear := pyPrevYear cfg.years year
  exoKeywords.flatMap (fun key => exoFilter cfg table prevyear year key)

/-- `SolveTemplate.produce_exogenous_capacity`: the exogenous-capacity block
of the template for `year`.  `table` is the parsed contents of the
`exogenous_capacity` file (`none` when no file is configured). -/
def produce_exogenous_capacity (cfg : Config) (table : Option (List ExoRow)) (year : ℤ) : String :=
  match table with
  | none => "\n"
  | some tbl =>
    let prevyear := pyPrevYear cfg.years year
    "\n" ++ String.join (exoKeywords.map (fun key =>
      let cap := exoFilter cfg tbl prevyear year key
      if cap.isEmpty then ""
      else
        "#Exogenous capacity entry " ++ key ++ "\n" ++ "param " ++ key ++ ":=\n"
          ++ dfToString (cap.map (fun r => [toString r.zone, toString r.tech, pyNumStr r.value]))
          ++ "\n;\n"))

/-- Iteration order and row shape (`true` = `'tech'`, `false` = `'zonetech'`)
of the `keywords` dict in `produce_custom_costs`. -/
def customKeywords : List (String × Bool) :=
  [("cost_gen_build", false), ("cost_hyb_build", false), ("cost_stor_build", false),
   ("cost_fuel", false),
   ("cost_gen_fom", true), ("cost_gen_vom", true), ("cost_hyb_fom", true),
   ("cost_hyb_vom", true), ("cost_stor_fom", true), ("cost_stor_vom", true)]

/-- `SolveTemplate.produce_custom_costs`: the custom-cost block of the
template for year `y`. -/
def produce_custom_costs (cfg : Config) (table : Option CustomTable) (y : ℤ) : String :=
  match table with
  | none => "\n"
  | some t =>
    "\n" ++ String.join (customKeywords.map (fun kw =>
      let cost :=
        if y ∈ t.cols then
          t.rows.filter (fun r =>
            decide (r.name = kw.1) && decide (r.tech ∈ cfg.all_tech) &&
            decide (r.zone ∈ cfg.zones) && (r.cells.lookup y).isSome)
        else []
      if cost.isEmpty then ""
      else
        "#Custom cost entry for " ++ kw.1 ++ "\n" ++ "param " ++ kw.1 ++ ":=\n"
          ++ (if kw.2 then
                dfToString (cost.map (fun r => [toString r.tech, fmtF10_2 ((r.cells.lookup y).getD 0)]))
              else
                dfToString (cost.map (fun r =>
                  [toString r.zone, toString r.tech, fmtF10_2 ((r.cells.lookup y).getD 0)])))
          ++ "\n;\n"))

/-- `SolveTemplate.carryforwardcap`: for a non-first year, a `load` clause
referencing the previous year's persisted carry-forward artifact
`gen_cap_op<prevyear>.json`; for the first year, the bootstrap clause
querying the external capacity database. -/
def carryforwardcap (cfg : Config) (year : ℤ) : String :=
  if cfg.years.indexOf year ≠ 0 then
    let prevyear := pyPrevYear cfg.years year
    "load '" ++ cfg.tmpdir ++ "gen_cap_op" ++ toString prevyear
      ++ ".json' : [zones,all_tech] gen_cap_initial stor_cap_initial hyb_cap_initial;"
  else
    "#operating capacity for all technilogies and regions\n"
      ++ "load \"opencem.ckvu5hxg6w5z.ap-southeast-1.rds.amazonaws.com\" database=opencem_input\n"
      ++ "user=select password=select_password using=pymysql\n"
      ++ "query=\"select ntndp_zone_id as zones, technology_type_id as all_tech, sum(reg_cap) as gen_cap_initial\n"
      ++ "from capacity\n"
      ++ "where (ntndp_zone_id,technology_type_id) in\n"
      ++ sqllist cfg.gentech
      ++ "\nand commissioning_year is NULL\n"
      ++ "group by zones,all_tech;\" : [zones,all_tech] gen_cap_initial;\n\n"
      ++ "# operating capacity for all technilogies and regions\n"
      ++ "load \"opencem.ckvu5hxg6w5z.ap-southeast-1.rds.amazonaws.com\" database=opencem_input\n"
      ++ "user=select password=select_password using=pymysql\n"
      ++ "query=\"select ntndp_zone_id as zones, technology_type_id as all_tech, sum(reg_cap) as stor_cap_initial\n"
      ++ "from capacity\n"
      ++ "where (ntndp_zone_id,technology_type_id) in\n"
      ++ sqllist cfg.stortech
      ++ "\nand commissioning_year is NULL\n"
      ++ "group by zones,all_tech;\" : [zones,all_tech] stor_cap_initial;\n\n"
      ++ "# operating capacity for all technilogies and regions\n"
      ++ "load \"opencem.ckvu5hxg6w5z.ap-southeast-1.rds.amazonaws.com\" database=opencem_input\n"
      ++ "user=select password=select_password using=pymysql\n"
      ++ "query=\"select ntndp_zone_id as zones, technology_type_id as all_tech, sum(reg_cap) as hyb_cap_initial\n"
      ++ "from capacity\n"
      ++ "where (ntndp_zone_id,technology_type_id) in\n"
      ++ sqllist cfg.hybtech
      ++ "\nand commissioning_year is NULL\n"
      ++ "group by zones,all_tech;\" : [zones,all_tech] hyb_cap_initial;\n"

/-- `SolveTemplate.carry_forward_cap_costs`: the annualised capital-cost
carry-forward clause (empty for the first year). -/
def carry_forward_cap_costs (cfg : Config) (year : ℤ) : String :=
  if cfg.years.indexOf year ≠ 0 then
    let prevyear := pyPrevYear cfg.years year
    "#Carry forward annualised capital costs\n"
      ++ "load '" ++ cfg.tmpdir ++ "gen_cap_op" ++ toString prevyear ++ ".json' : cost_cap_carry_forward;\n"
  else ""

/-! ## Template generation (`SolveTemplate.generateyeartemplate`) -/

/-- " ".join(str(i) for i in l) -/
def joinInts (l : List ℤ) : String := String.intercalate " " (l.map toString)

/-- ", ".join(str(i) for i in cat if i in all_tech) -/
def joinTechList (cat all_tech : List ℤ) : String :=
  String.intercalate ", " ((cat.filter (fun i => decide (i ∈ all_tech))).map toString)

/-- The sequential placeholder substitution applied to one template line, in
source order. -/
def substLine (cfg : Config) (consts : Consts) (opcap0 drange : String)
    (year prevyear : ℤ) (line : String) : String :=
  let line := pyReplace line "[regions]" (joinInts cfg.regions)
  let line := pyReplace line "[zones]" (joinInts cfg.zones)
  let line := pyReplace line "[alltech]" (joinInts cfg.all_tech)
  let line := pyReplace line "XXXX" (toString year)
  let line := pyReplace line "WWWW" (toString prevyear)
  let line := pyReplace line "[gentech]" (dclist cfg.gentech)
  let line := pyReplace line "[gentechdb]" (sqllist cfg.gentech)
  let line := pyReplace line "[gentechlist]" (joinTechList consts.GEN_TECH cfg.all_tech)
  let line := pyReplace line "[stortech]" (dclist cfg.stortech)
  let line := pyReplace line "[stortechdb]" (sqllist cfg.stortech)
  let line := pyReplace line "[stortechlist]" (joinTechList consts.STOR_TECH cfg.all_tech)
  let line := pyReplace line "[hybtech]" (dclist cfg.hybtech)
  let line := pyReplace line "[hybtechdb]" (sqllist cfg.hybtech)
  let line := pyReplace line "[hybtechlist]" (joinTechList consts.HYB_TECH cfg.all_tech)
  let line := pyReplace line "[retiretech]" (dclist cfg.retiretech)
  let line := pyReplace line "[retiretechdb]" (sqllist cfg.retiretech)
  let line := pyReplace line "[retiretechset]" (joinInts consts.RETIRE_TECH)
  let line := pyReplace line "[fueltech]" (dclist cfg.fueltech)
  let line := pyReplace line "[fueltechdb]" (sqllist cfg.fueltech)
  let line := pyReplace line "[fueltechset]" (joinInts consts.FUEL_TECH)
  let line := pyReplace line "[committech]" (dclist cfg.committech)
  let line := pyReplace line "[regentech]" (dclist cfg.regentech)
  let line := pyReplace line "[dispgentech]" (dclist cfg.dispgentech)
  let line := pyReplace line "[redispgentech]" (dclist cfg.redispgentech)
  let line := pyReplace line "[stortechset]" (joinInts consts.STOR_TECH)
  let line := pyReplace line "[hybtechset]" (joinInts consts.HYB_TECH)
  let line := pyReplace line "[nobuildset]" (joinInts consts.NOBUILD_TECH)
  let line := pyReplace line "[carryforwardcap]" opcap0
  let line := pyReplace line "[timerange]" drange
  line

/-- The per-year policy parameter blocks appended after the substituted
template body, in write order.  Python truthiness (`if self.cost_emit:`)
makes both a missing series and an empty list render nothing. -/
def cemitBlock (cfg : Config) (idx : ℕ) : String :=
  match cfg.cost_emit with
  | some (v :: vs) =>
    "#Cost of emissions $/Mhw\n" ++ "param cost_emit:= " ++ pyNumStr ((v :: vs).getD idx 0) ++ ";\n"
  | _ => ""

/-- `nem_ret_ratio` parameter block. -/
def nemRetRatioBlock (cfg : Config) (idx : ℕ) : String :=
  match cfg.nem_ret_ratio with
  | some (v :: vs) =>
    "\n # NEM wide RET\n" ++ "param nem_ret_ratio :=" ++ pyNumStr ((v :: vs).getD idx 0) ++ ";\n"
  | _ => ""

/-- `nem_ret_gwh` parameter block. -/
def nemRetGwhBlock (cfg : Config) (idx : ℕ) : String :=
  match cfg.nem_ret_gwh with
  | some (v :: vs) =>
    "\n # NEM wide RET\n" ++ "param nem_ret_gwh :=" ++ pyNumStr ((v :: vs).getD idx 0) ++ ";\n"
  | _ => ""

/-- `region_ret_ratio` parameter block. -/
def regionRetRatioBlock (cfg : Config) (idx : ℕ) : String :=
  match cfg.region_ret_ratio with
  | some (e :: es) =>
    "\n #Regional based RET\n" ++ "param region_ret_ratio := "
      ++ String.intercalate " "
          ((e :: es).map (fun p => toString p.1 ++ " " ++ pyNumStr (p.2.getD idx 0)))
      ++ ";\n"
  | _ => ""

/-- `nem_year_emit_limit` parameter block. -/
def emitLimitBlock (cfg : Config) (idx : ℕ) : String :=
  match cfg.emitlimit with
  | some (v :: vs) =>
    "\n #NEM wide emission limit (in GT)\n" ++ "param nem_year_emit_limit := "
      ++ pyNumStr ((v :: vs).getD idx 0) ++ ";\n"
  | _ => ""

/-- `nem_disp_ratio` parameter block. -/
def nemDispRatioBlock (cfg : Config) (idx : ℕ) : String :=
  match cfg.nem_disp_ratio with
  | some (v :: vs) =>
    "\n #NEM wide minimum generation ratio from dispatchable tech\n"
      ++ "param nem_disp_ratio := " ++ pyNumStr ((v :: vs).getD idx 0) ++ ";\n"
  | _ => ""

/-- `nem_re_disp_ratio` parameter block. -/
def nemReDispRatioBlock (cfg : Config) (idx : ℕ) : String :=
  match cfg.nem_re_disp_ratio with
  | some (v :: vs) =>
    "\n #NEM wide minimum generation ratio from dispatchable tech\n"
      ++ "param nem_re_disp_ratio := " ++ pyNumStr ((v :: vs).getD idx 0) ++ ";\n"
  | _ => ""

/-- `SolveTemplate.generateyeartemplate`: generate the data command file for
`year`.  `templateLines` is the template file's contents (as lines including
their newlines, as Python's file iteration yields them); the result is the
generated file's name and its full contents. -/
def generateyeartemplate (cfg : Config) (consts : Consts) (templateLines : List String)
    (customTable : Option CustomTable) (exoTable : Option (List ExoRow))
    (year : ℤ) (test : Bool) : String × String :=
  let strd1 := "'" ++ fmtDateTime (year - 1) 7 1 0 0 0 ++ "'"
  let strd2 := "'" ++ (if test then fmtDateTime (year - 1) 7 3 23 0 0
                       else fmtDateTime year 6 30 23 0 0) ++ "'"
  let drange := "BETWEEN " ++ strd1 ++ " AND " ++ strd2
  let dcfName := cfg.tmpdir ++ "Sim" ++ toString year ++ ".dat"
  let fcr := "\n#Discount rate for project\n" ++ "param all_tech_discount_rate := "
    ++ pyNumStr cfg.discountrate ++ ";\n"
  let opcap0 := carryforwardcap cfg year
  let carry_fwd_cap := carry_forward_cap_costs cfg year
  let custom_costs := produce_custom_costs cfg customTable year
  let exogenous_capacity := produce_exogenous_capacity cfg exoTable year
  let idx := cfg.years.indexOf year
  let cemit := cemitBlock cfg idx
  let nem_ret_ratio := nemRetRatioBlock cfg idx
  let nem_ret_gwh := nemRetGwhBlock cfg idx
  let region_ret_ratio := regionRetRatioBlock cfg idx
  let emitlimit := emitLimitBlock cfg idx
  let nem_disp_ratio := nemDispRatioBlock cfg idx
  let nem_re_disp_ratio := nemReDispRatioBlock cfg idx
  let prevyear : ℤ := if idx = 0 then 2017 else pyPrevYear cfg.years year
  let body := String.join (templateLines.map (substLine cfg consts opcap0 drange year prevyear))
  (dcfName,
   body ++ custom_costs ++ exogenous_capacity ++ fcr ++ cemit ++ carry_fwd_cap
     ++ nem_ret_ratio ++ nem_ret_gwh ++ region_ret_ratio ++ emitlimit
     ++ nem_disp_ratio ++ nem_re_disp_ratio)

/-! ## Solved model instances and result marshalling (`cemo.jsonify`)

A pyomo instance is opaque to this core except for the components the
marshalling and the orchestrator read.  Component payloads produced by the
external solver are held as abstract `JValue` data; the capacity variables
that the orchestrator itself writes (`setinstancecapacity`) and carries
forward are typed `(zone, tech) → value`. -/

/-- A (solved) model instance, with exactly the components read by
`jsonify`, `json_carry_forward_cap` and `setinstancecapacity`. -/
structure Instance where
  regions : List ℤ
  zones : List ℤ
  all_tech : List ℤ
  fuel_gen_tech : List JValue
  retire_gen_tech : List JValue
  nobuild_gen_tech : List JValue
  hyb_tech : List JValue
  stor_tech : List JValue
  t : List JValue
  zones_in_regions : List JValue
  gen_tech_in_zones : List JValue
  fuel_gen_tech_in_zones : List JValue
  retire_gen_tech_in_zones : List JValue
  hyb_tech_in_zones : List JValue
  stor_tech_in_zones : List JValue
  region_intercons : List JValue
  zones_per_region : List (ℤ × List ℤ)
  gen_tech_per_zone : List (ℤ × List ℤ)
  fuel_gen_tech_per_zone : List (ℤ × List ℤ)
  retire_gen_tech_per_zone : List (ℤ × List ℤ)
  hyb_tech_per_zone : List (ℤ × List ℤ)
  stor_tech_per_zone : List (ℤ × List ℤ)
  intercon_per_region : List (ℤ × List ℤ)
  cost_gen_build : List (JValue × JValue)
  cost_stor_build : List (JValue × JValue)
  cost_hyb_build : List (JValue × JValue)
  cost_fuel : List (JValue × JValue)
  fuel_heat_rate : List (JValue × JValue)
  intercon_prop_factor : List (JValue × JValue)
  gen_cap_factor : List (JValue × JValue)
  hyb_cap_factor : List (JValue × JValue)
  gen_build_limit : List (JValue × JValue)
  gen_cap_initial : List (JValue × JValue)
  stor_cap_initial : List (JValue × JValue)
  hyb_cap_initial : List (JValue × JValue)
  gen_cap_exo : List (JValue × JValue)
  stor_cap_exo : List (JValue × JValue)
  hyb_cap_exo : List (JValue × JValue)
  ret_gen_cap_exo : List (JValue × JValue)
  region_net_demand : List (JValue × JValue)
  intercon_trans_limit : List (JValue × JValue)
  cost_gen_fom : List (ℤ × JValue)
  cost_gen_vom : List (ℤ × JValue)
  cost_stor_fom : List (ℤ × JValue)
  cost_stor_vom : List (ℤ × JValue)
  cost_hyb_fom : List (ℤ × JValue)
  cost_hyb_vom : List (ℤ × JValue)
  all_tech_lifetime : List (ℤ × JValue)
  fixed_charge_rate : List (ℤ × JValue)
  cost_retire : List (ℤ × JValue)
  stor_rt_eff : List (ℤ × JValue)
  stor_charge_hours : List (ℤ × JValue)
  hyb_col_mult : List (ℤ × JValue)
  hyb_charge_hours : List (ℤ × JValue)
  fuel_emit_rate : List (ℤ × JValue)
  cost_cap_carry_forward : List (ℤ × JValue)
  cost_unserved : JValue
  cost_emit : JValue
  cost_trans : JValue
  all_tech_discount_rate : JValue
  year_correction_factor : JValue
  gen_cap_new : List ((ℤ × ℤ) × ℚ)
  gen_cap_op : List ((ℤ × ℤ) × ℚ)
  stor_cap_new : List ((ℤ × ℤ) × ℚ)
  stor_cap_op : List ((ℤ × ℤ) × ℚ)
  hyb_cap_new : List ((ℤ × ℤ) × ℚ)
  hyb_cap_op : List ((ℤ × ℤ) × ℚ)
  gen_cap_ret : List ((ℤ × ℤ) × ℚ)
  gen_cap_ret_neg : List (JValue × JValue)
  gen_cap_exo_neg : List (JValue × JValue)
  gen_disp : List (JValue × JValue)
  stor_disp : List (JValue × JValue)
  stor_charge : List (JValue × JValue)
  hyb_disp : List (JValue × JValue)
  hyb_charge : List (JValue × JValue)
  stor_level : List (JValue × JValue)
  hyb_level : List (JValue × JValue)
  unserved : List (JValue × JValue)
  surplus : List (JValue × JValue)
  intercon_disp : List (JValue × JValue)
  ldbalDual : List (JValue × JValue)
  Obj : ℚ
  /-- Modelled from the spec: `cemo.rules.cost_shadow` (cemo/rules.py is not
  among the provided sources); an opaque scalar subtracted from the
  objective. -/
  cost_shadow : ℚ
  /-- Modelled from the spec: `cemo.rules.cost_capital` per zone (cemo/rules.py
  is not among the provided sources); the annualised capital-cost
  carry-forward value per zone. -/
  costCapital : ℤ → ℚ
  /-- whether a `nem_year_emit_limit` component is on the instance (`hasattr`) -/
  nem_year_emit_limit : Option JValue
  nem_ret_ratio : Option JValue
  nem_ret_gwh : Option JValue
  region_ret_ratio : Option (List (ℤ × JValue))
  nem_disp_ratio : Option JValue
  nem_re_disp_ratio : Option JValue
  /-- capacity variables fixed after a clustering pre-solve (`Var.fix()`) -/
  capsFixed : Bool

/-- `cemo.jsonify.fill_complex_set`. -/
def fill_complex_set (pset : List (ℤ × List ℤ)) : JValue :=
  .obj (pset.map (fun il => (toString il.1, .arr (il.2.map jInt))))

/-- `cemo.jsonify.fill_complex_param` (and `fill_complex_var` for components
with opaque indices). -/
def fill_complex_param (par : List (JValue × JValue)) : JValue :=
  .arr (par.map (fun e => .obj [("index", e.1), ("value", e.2)]))

/-- `cemo.jsonify.fill_complex_var` for the `(zone, tech)`-indexed capacity
variables. -/
def fill_complex_var_zt (var : List ((ℤ × ℤ) × ℚ)) : JValue :=
  .arr (var.map (fun e => .obj [("index", .arr [jInt e.1.1, jInt e.1.2]), ("value", .num e.2)]))

/-- `cemo.jsonify.fill_scalar_key_param`. -/
def fill_scalar_key_param (par : List (ℤ × JValue)) : JValue :=
  .obj (par.map (fun e => (toString e.1, e.2)))

/-- `cemo.jsonify.fill_dual_suffix`. -/
def fill_dual_suffix (entries : List (JValue × JValue)) : JValue :=
  .arr (entries.map (fun e => .obj [("index", e.1), ("value", e.2)]))

/-- `cemo.jsonify.jsonify`: the full JSON model output, with the five schema
keys and the conditionally present policy parameters appended into
`params`. -/
def jsonify (inst : Instance) : JValue :=
  let params : List (String × JValue) :=
    [("cost_gen_build", fill_complex_param inst.cost_gen_build),
     ("cost_stor_build", fill_complex_param inst.cost_stor_build),
     ("cost_hyb_build", fill_complex_param inst.cost_hyb_build),
     ("cost_fuel", fill_complex_param inst.cost_fuel),
     ("fuel_heat_rate", fill_complex_param inst.fuel_heat_rate),
     ("intercon_prop_factor", fill_complex_param inst.intercon_prop_factor),
     ("gen_cap_factor", fill_complex_param inst.gen_cap_factor),
     ("hyb_cap_factor", fill_complex_param inst.hyb_cap_factor),
     ("gen_build_limit", fill_complex_param inst.gen_build_limit),
     ("gen_cap_initial", fill_complex_param inst.gen_cap_initial),
     ("stor_cap_initial", fill_complex_param inst.stor_cap_initial),
     ("hyb_cap_initial", fill_complex_param inst.hyb_cap_initial),
     ("gen_cap_exo", fill_complex_param inst.gen_cap_exo),
     ("stor_cap_exo", fill_complex_param inst.stor_cap_exo),
     ("hyb_cap_exo", fill_complex_param inst.hyb_cap_exo),
     ("ret_gen_cap_exo", fill_complex_param inst.ret_gen_cap_exo),
     ("region_net_demand", fill_complex_param inst.region_net_demand),
     ("intercon_trans_limit", fill_complex_param inst.intercon_trans_limit),
     ("cost_gen_fom", fill_scalar_key_param inst.cost_gen_fom),
     ("cost_gen_vom", fill_scalar_key_param inst.cost_gen_vom),
     ("cost_stor_fom", fill_scalar_key_param inst.cost_stor_fom),
     ("cost_stor_vom", fill_scalar_key_param inst.cost_stor_vom),
     ("cost_hyb_fom", fill_scalar_key_param inst.cost_hyb_fom),
     ("cost_hyb_vom", fill_scalar_key_param inst.cost_hyb_vom),
     ("all_tech_lifetime", fill_scalar_key_param inst.all_tech_lifetime),
     ("fixed_charge_rate", fill_scalar_key_param inst.fixed_charge_rate),
     ("cost_retire", fill_scalar_key_param inst.cost_retire),
     ("stor_rt_eff", fill_scalar_key_param inst.stor_rt_eff),
     ("stor_charge_hours", fill_scalar_key_param inst.stor_charge_hours),
     ("hyb_col_mult", fill_scalar_key_param inst.hyb_col_mult),
     ("hyb_charge_hours", fill_scalar_key_param inst.hyb_charge_hours),
     ("fuel_emit_rate", fill_scalar_key_param inst.fuel_emit_rate),
     ("cost_cap_carry_forward", fill_scalar_key_param inst.cost_cap_carry_forward),
     ("cost_unserved", inst.cost_unserved),
     ("cost_emit", inst.cost_emit),
     ("cost_trans", inst.cost_trans),
     ("all_tech_discount_rate", inst.all_tech_discount_rate),
     ("year_correction_factor", inst.year_correction_factor)]
  let params := pyUpdate params
    (match inst.nem_year_emit_limit with
     | some v => [("nem_year_emit_limit", v)] | none => [])
  let params := pyUpdate params
    (match inst.nem_ret_ratio with
     | some v => [("nem_ret_ratio", v)] | none => [])
  let params := pyUpdate params
    (match inst.nem_ret_gwh with
     | some v => [("nem_ret_gwh", v)] | none => [])
  let params := pyUpdate params
    (match inst.region_ret_ratio with
     | some m => [("region_ret_ratio", fill_scalar_key_param m)] | none => [])
  let params := pyUpdate params
    (match inst.nem_disp_ratio with
     | some v => [("nem_disp_ratio", v)] | none => [])
  let params := pyUpdate params
    (match inst.nem_re_disp_ratio with
     | some v => [("nem_re_disp_ratio", v)] | none => [])
  .obj
    [("sets", .obj
      [("regions", .arr (inst.regions.map jInt)),
       ("zones", .arr (inst.zones.map jInt)),
       ("all_tech", .arr (inst.all_tech.map jInt)),
       ("fuel_gen_tech", .arr inst.fuel_gen_tech),
       ("retire_gen_tech", .arr inst.retire_gen_tech),
       ("nobuild_gen_tech", .arr inst.nobuild_gen_tech),
       ("hyb_tech", .arr inst.hyb_tech),
       ("stor_tech", .arr inst.stor_tech),
       ("t", .arr inst.t),
       ("zones_in_regions", .arr inst.zones_in_regions),
       ("gen_tech_in_zones", .arr inst.gen_tech_in_zones),
       ("fuel_gen_tech_in_zones", .arr inst.fuel_gen_tech_in_zones),
       ("retire_gen_tech_in_zones", .arr inst.retire_gen_tech_in_zones),
       ("hyb_tech_in_zones", .arr inst.hyb_tech_in_zones),
       ("stor_tech_in_zones", .arr inst.stor_tech_in_zones),
       ("region_intercons", .arr inst.region_intercons),
       ("zones_per_region", fill_complex_set inst.zones_per_region),
       ("gen_tech_per_zone", fill_complex_set inst.gen_tech_per_zone),
       ("fuel_gen_tech_per_zone", fill_complex_set inst.fuel_gen_tech_per_zone),
       ("retire_gen_tech_per_zone", fill_complex_set inst.retire_gen_tech_per_zone),
       ("hyb_tech_per_zone", fill_complex_set inst.hyb_tech_per_zone),
       ("stor_tech_per_zone", fill_complex_set inst.stor_tech_per_zone),
       ("intercon_per_region", fill_complex_set inst.intercon_per_region)]),
     ("params", .obj params),
     ("vars", .obj
      [("gen_cap_new", fill_complex_var_zt inst.gen_cap_new),
       ("gen_cap_op", fill_complex_var_zt inst.gen_cap_op),
       ("stor_cap_new", fill_complex_var_zt inst.stor_cap_new),
       ("stor_cap_op", fill_complex_var_zt inst.stor_cap_op),
       ("hyb_cap_new", fill_complex_var_zt inst.hyb_cap_new),
       ("hyb_cap_op", fill_complex_var_zt inst.hyb_cap_op),
       ("gen_cap_ret", fill_complex_var_zt inst.gen_cap_ret),
       ("gen_cap_ret_neg", fill_complex_param inst.gen_cap_ret_neg),
       ("gen_cap_exo_neg", fill_complex_param inst.gen_cap_exo_neg),
       ("gen_disp", fill_complex_param inst.gen_disp),
       ("stor_disp", fill_complex_param inst.stor_disp),
       ("stor_charge", fill_complex_param inst.stor_charge),
       ("hyb_disp", fill_complex_param inst.hyb_disp),
       ("hyb_charge", fill_complex_param inst.hyb_charge),
       ("stor_level", fill_complex_param inst.stor_level),
       ("hyb_level", fill_complex_param inst.hyb_level),
       ("unserved", fill_complex_param inst.unserved),
       ("surplus", fill_complex_param inst.surplus),
       ("intercon_disp", fill_complex_param inst.intercon_disp)]),
     ("duals", .obj [("srmc", fill_dual_suffix inst.ldbalDual)]),
     ("objective_value", .num (inst.Obj - inst.cost_shadow))]

/-- `cemo.jsonify.json_carry_forward_cap`: the carry-forward artifact
contents for the next investment period. -/
def json_carry_forward_cap (inst : Instance) : JValue :=
  .obj
    [("gen_cap_initial", fill_complex_var_zt inst.gen_cap_op),
     ("stor_cap_initial", fill_complex_var_zt inst.stor_cap_op),
     ("hyb_cap_initial", fill_complex_var_zt inst.hyb_cap_op),
     ("cost_cap_carry_forward",
      .arr (inst.zones.map (fun z => .obj [("index", jInt z), ("value", .num (inst.costCapital z))])))]

/-! ## The sequential solve orchestrator (`SolveTemplate.solve`) -/

/-- `cemo.multi.setinstancecapacity`'s per-variable write loop: for each
zone `z` and each technology `n` active in `z`, write
`roundup(data['<varname>[z,n]']['solution'])`. -/
def setCapVar (entries : List ((ℤ × ℤ) × ℚ)) (zones : List ℤ) (perZone : List (ℤ × List ℤ))
    (varname : String) (data : String → ℚ) : List ((ℤ × ℤ) × ℚ) :=
  entries.map (fun e =>
    if zones.contains e.1.1 && ((perZone.lookup e.1.1).getD []).contains e.1.2 then
      (e.1, roundup (data (varname ++ "[" ++ toString e.1.1 ++ "," ++ toString e.1.2 ++ "]")))
    else e)

/-- `cemo.multi.setinstancecapacity`: write the clustering pre-solve's
capacity solution into the instance through `roundup` and fix the capacity
variables. -/
def setinstancecapacity (inst : Instance) (data : String → ℚ) : Instance :=
  { inst with
    gen_cap_new := setCapVar inst.gen_cap_new inst.zones inst.gen_tech_per_zone "gen_cap_new" data
    stor_cap_new := setCapVar inst.stor_cap_new inst.zones inst.stor_tech_per_zone "stor_cap_new" data
    hyb_cap_new := setCapVar inst.hyb_cap_new inst.zones inst.hyb_tech_per_zone "hyb_cap_new" data
    gen_cap_ret := setCapVar inst.gen_cap_ret inst.zones inst.retire_gen_tech_per_zone "gen_cap_ret" data
    capsFixed := true }

/-- The external collaborators of the orchestrator: the model builder
(`create_model` + `create_instance`), the clustering decomposer
(`InstanceCluster`/`ClusterRun`, returning the decomposed solution data) and
the solver (`SolverFactory(...).solve`). -/
structure Externals where
  createInstance : ℤ → String → Instance
  clusterRun : ℤ → Instance → (String → ℚ)
  solverSolve : Instance → Instance

/-- `self.Years[-1]`. -/
def lastYear (cfg : Config) : ℤ := (pyGet cfg.years (-1)).getD 0

/-- One iteration of the solve loop for year `y`: generate the template,
build the instance, optionally cluster pre-solve and fix capacity, then
solve in full. -/
def runYear (cfg : Config) (consts : Consts) (templateLines : List String)
    (customTable : Option CustomTable) (exoTable : Option (List ExoRow))
    (ext : Externals) (y : ℤ) : Instance :=
  let year_template := (generateyeartemplate cfg consts templateLines customTable exoTable y false).2
  let inst := ext.createInstance y year_template
  let inst := if cfg.cluster then setinstancecapacity inst (ext.clusterRun y inst) else inst
  ext.solverSolve inst

/-- The `meta` dictionary of `SolveTemplate.generate_metadata`. -/
def metaFields (cfg : Config) (customTable : Option (List (String × JValue)))
    (exoTable : Option (List (String × JValue))) : List (String × JValue) :=
    [("Name", .str cfg.name),
     ("Years", .arr (cfg.years.map jInt)),
     ("Template", .str cfg.template),
     ("Clustering", .bool cfg.cluster),
     ("Cluster_number", if cfg.cluster then jInt cfg.cluster_max_d else .str "N/A"),
     ("Solver", .str cfg.solver),
     ("Discount_rate", .num cfg.discountrate),
     ("Emission_cost", match cfg.cost_emit with
       | some l => .arr (l.map (fun q => .num q)) | none => .null),
     ("Description", match cfg.description with
       | some s => .str s | none => .null),
     ("NEM wide RET as ratio", match cfg.nem_ret_ratio with
       | some l => .arr (l.map (fun q => .num q)) | none => .null),
     ("NEM wide RET as GWh", match cfg.nem_ret_gwh with
       | some l => .arr (l.map (fun q => .num q)) | none => .null),
     ("Regional based RET", match cfg.region_ret_ratio with
       | some m => .obj (m.map (fun p => (toString p.1, .arr (p.2.map (fun q => .num q)))))
       | none => .null),
     ("System emission limit", match cfg.emitlimit with
       | some l => .arr (l.map (fun q => .num q)) | none => .null),
     ("Dispatchable generation ratio ", match cfg.nem_disp_ratio with
       | some l => .arr (l.map (fun q => .num q)) | none => .null),
     ("Renewable Dispatchable generation ratio ", match cfg.nem_re_disp_ratio with
       | some l => .arr (l.map (fun q => .num q)) | none => .null),
     ("Custom costs", match customTable with
       | some recs => .arr (recs.map (fun r => .obj [r])) | none => .null),
     ("Exogenous Capacity decisions", match exoTable with
       | some recs => .arr (recs.map (fun r => .obj [r])) | none => .null)]

/-- `SolveTemplate.generate_metadata`. -/
def generate_metadata (cfg : Config) (customTable : Option (List (String × JValue)))
    (exoTable : Option (List (String × JValue))) : List (String × JValue) :=
  [("meta", .obj (metaFields cfg customTable exoTable))]

/-- `SolveTemplate.mergejsonyears`: fold every year's persisted result into
the metadata dictionary, keyed by the year as a string. -/
def mergejsonyears (cfg : Config) (customTable : Option (List (String × JValue)))
    (exoTable : Option (List (String × JValue))) (yearFiles : List (ℤ × JValue)) : JValue :=
  let data := generate_metadata cfg customTable exoTable
  let data := cfg.years.foldl
    (fun d y => pyUpdate d [(toString y, ((yearFiles.lookup y).getD .null))]) data
  .obj data

/-- The artifacts the orchestrator writes during a run. -/
structure RunOutput where
  /-- `gen_cap_op<y>.json` carry-forward artifacts, keyed by year -/
  carryFiles : List (ℤ × JValue)
  /-- `<y>.json` full year results, keyed by year -/
  yearFiles : List (ℤ × JValue)
  /-- the merged final report -/
  finalReport : JValue

/-- `SolveTemplate.solve`: the sequential multi-year solve loop.  For each
year in ascending order: generate the template, build and solve the
instance, persist the carry-forward artifact for every year except the last,
persist the year result, and finally merge all year results with the
metadata. -/
def solve (cfg : Config) (consts : Consts) (templateLines : List String)
    (customTable : Option CustomTable) (exoTable : Option (List ExoRow))
    (customRecords : Option (List (String × JValue)))
    (exoRecords : Option (List (String × JValue))) (ext : Externals) : RunOutput :=
  let results := cfg.years.map (fun y => (y, runYear cfg consts templateLines customTable exoTable ext y))
  let carryFiles := (results.filter (fun p => p.1 != lastYear cfg)).map
    (fun p => (p.1, json_carry_forward_cap p.2))
  let yearFiles := results.map (fun p => (p.1, jsonify p.2))
  { carryFiles := carryFiles
    yearFiles := yearFiles
    finalReport := mergejsonyears cfg customRecords exoRecords yearFiles }

/-! ## Theorems -/

/-- C1, counterexample: contrary to the claim, `roundup` raises no error for
inputs `≤ -1e-6`: it is a total function that returns `round(cap, 2)` there,
so `roundup(-1e-5)` returns `-0.0 == 0` (a corrected value) and
`roundup(-0.5)` returns `-0.5`. -/
theorem roundup_raises_counterexample :
    roundup (-(1/100000)) = 0 ∧ roundup (-(1/2)) = -(1/2) := by
  constructor
  · rw [roundup, if_neg (by rintro ⟨h1, h2⟩; linarith), pyRound2, pyRoundInt]
    norm_num
  · rw [roundup, if_neg (by rintro ⟨h1, h2⟩; linarith), pyRound2, pyRoundInt]
    norm_num

/-- C1, amended: `roundup(-0.0000005) == 0`, `roundup(0) == 0` and
`roundup(1.2345) == 1.23` hold, but an input `x ≤ -1e-6` does not raise
inside `roundup`: the value `round(x, 2)` is returned unchanged (so a
meaningfully negative capacity propagates to fail downstream, as the
function's own docstring describes). -/
theorem roundup_policy_amended :
    roundup (-(5/10000000)) = 0 ∧ roundup 0 = 0 ∧ roundup (12345/10000) = 123/100 ∧
    ∀ x : ℚ, x ≤ -(1/1000000) → roundup x = pyRound2 x := by
  refine ⟨?_, ?_, ?_, ?_⟩
  · rw [roundup, if_pos (by constructor <;> norm_num)]
  · rw [roundup, if_neg (by rintro ⟨h1, h2⟩; linarith), pyRound2, pyRoundInt]
    norm_num
  · rw [roundup, if_neg (by rintro ⟨h1, h2⟩; linarith), pyRound2, pyRoundInt]
    norm_num
  · intro x hx
    rw [roundup, if_neg]
    rintro ⟨h1, _⟩
    linarith

/-- C1, witness for the amended theorem at `x = -1/2`. -/
theorem roundup_policy_amended_witness :
    roundup (-(5/10000000)) = 0 ∧ roundup (-(1/2) : ℚ) = pyRound2 (-(1/2)) :=
  ⟨roundup_policy_amended.1, roundup_policy_amended.2.2.2 (-(1/2)) (by norm_num)⟩

/-- `techPairs` of a mapping whose per-zone lists are all empty is empty. -/
lemma techPairs_eq_nil {ts : List (ℤ × List ℤ)} (h : ∀ p ∈ ts, p.2 = ([] : List ℤ)) :
    techPairs ts = [] := by
  simp only [techPairs, List.flatMap_eq_nil_iff]
  intro zl hzl
  simp [h zl hzl]

/-- C9: when every per-zone technology list is empty, `sqllist` emits the
`"((99, 99))"` placeholder, keeping the SQL `in (...)` clause syntactically
valid; when at least one `(zone, tech)` pair exists, the output is exactly
the pairs in mapping order with no placeholder. -/
theorem sqllist_placeholder (ts : List (ℤ × List ℤ)) :
    ((∀ p ∈ ts, p.2 = ([] : List ℤ)) → sqllist ts = "((99, 99))") ∧
    (techPairs ts ≠ [] →
      sqllist ts = "(" ++ String.intercalate ", " ((techPairs ts).map pyTupleStr) ++ ")") := by
  constructor
  · intro h
    rw [sqllist]
    simp only [techPairs_eq_nil h]
    decide
  · intro h
    rw [sqllist]
    simp only [List.isEmpty_eq_true, h, if_false]

/-- C9, witness: an all-empty mapping and a two-pair mapping. -/
theorem sqllist_placeholder_witness :
    sqllist [((1 : ℤ), ([] : List ℤ))] = "((99, 99))" ∧
    sqllist [((3 : ℤ), [(12 : ℤ), 13])]
      = "(" ++ String.intercalate ", "
          ((techPairs [((3 : ℤ), [(12 : ℤ), 13])]).map pyTupleStr) ++ ")" :=
  ⟨(sqllist_placeholder _).1 (by simp), (sqllist_placeholder _).2 (by decide)⟩

/-- Peeling one step off an `Except` bind that succeeded. -/
lemma bind_ok {α β : Type} {x : Except String α} {f : α → Except String β} {b : β}
    (h : (x >>= f) = .ok b) : ∃ a, x = .ok a ∧ f a = .ok b := by
  cases x with
  | error e => simp [Bind.bind, Except.bind] at h
  | ok a => exact ⟨a, rfl, by simpa [Bind.bind, Except.bind] using h⟩

/-- `List.max?` returns a member that bounds the list above. -/
lemma max?_spec {y : List ℤ} {mx : ℤ} (h : y.max? = some mx) : mx ∈ y ∧ ∀ b ∈ y, b ≤ mx := by
  haveI : Std.Antisymm (fun a b : ℤ => a ≤ b) := ⟨by intro a b h1 h2; omega⟩
  exact (List.max?_eq_some_iff (fun a => le_refl a) (fun a b => max_choice a b)
    (fun a b c => max_le_iff)).mp h

/-- `List.min?` returns a member that bounds the list below. -/
lemma min?_spec {y : List ℤ} {mn : ℤ} (h : y.min? = some mn) : mn ∈ y ∧ ∀ b ∈ y, mn ≤ b := by
  haveI : Std.Antisymm (fun a b : ℤ => a ≤ b) := ⟨by intro a b h1 h2; omega⟩
  exact (List.min?_eq_some_iff (fun a => le_refl a) (fun a b => min_choice a b)
    (fun a b c => le_min_iff)).mp h

/-- Inversion of a successful `Years` setter. -/
lemma setYears_ok_inv {y ys : List ℤ} (h : setYears y = .ok ys) :
    ys = y.insertionSort (· ≤ ·) ∧
    ∃ mx mn, y.max? = some mx ∧ y.min? = some mn ∧ mx ≤ 2050 ∧ 2018 ≤ mn := by
  cases hmx : y.max? with
  | none => simp only [setYears, hmx] at h; exact absurd h (by simp)
  | some mx =>
    cases hmn : y.min? with
    | none => simp only [setYears, hmn, hmx] at h; exact absurd h (by simp)
    | some mn =>
      simp only [setYears, hmx, hmn] at h
      split_ifs at h with h1 h2
      injection h with h3
      exact ⟨h3.symm, mx, mn, rfl, rfl, by omega, by omega⟩

/-- Out-of-range input years make the `Years` setter raise. -/
lemma setYears_error_of_out_of_range {y : List ℤ} {e : ℤ}
    (he : e ∈ y) (hout : e < 2018 ∨ 2050 < e) : ∃ msg, setYears y = .error msg := by
  have hne : y ≠ [] := List.ne_nil_of_mem he
  cases hmx : y.max? with
  | none => exact absurd (List.max?_eq_none_iff.mp hmx) hne
  | some mx =>
    cases hmn : y.min? with
    | none => exact absurd (List.min?_eq_none_iff.mp hmn) hne
    | some mn =>
      obtain ⟨hmem, hub⟩ := max?_spec hmx
      obtain ⟨hmem', hlb⟩ := min?_spec hmn
      by_cases h1 : mx > 2050
      · exact ⟨_, by simp only [setYears, hmx, hmn]; rw [if_pos h1]⟩
      · have h2 : mn < 2018 := by
          rcases hout with hlt | hgt
          · have := hlb e he; omega
          · have := hub e he; omega
        exact ⟨_, by simp only [setYears, hmx, hmn]; rw [if_neg h1, if_pos h2]⟩

/-- Inversion of a successful construction: every validating setter ran and
succeeded, and the stored years are the `Years` setter's output. -/
lemma validate_ok_inv {fs : String → Bool} {td sv : String} {cs : Consts}
    {raw : RawConfig} {cfg : Config} (h : validate fs td sv cs raw = .ok cfg) :
    ∃ ys, setYears raw.years = .ok ys ∧ cfg.years = ys ∧
      (∃ a, set_nem_ret_ratio ys raw.nem_ret_ratio = .ok a) ∧
      (∃ a, set_nem_ret_gwh ys raw.nem_ret_gwh = .ok a) ∧
      (∃ a, set_region_ret_ratio ys raw.region_ret_ratio = .ok a) ∧
      (∃ a, set_emitlimit ys raw.emitlimit = .ok a) ∧
      (∃ a, set_nem_disp_ratio ys raw.nem_disp_ratio = .ok a) ∧
      (∃ a, set_nem_re_disp_ratio ys raw.nem_re_disp_ratio = .ok a) ∧
      (∃ a, set_cost_emit ys raw.cost_emit = .ok a) := by
  simp only [validate] at h
  obtain ⟨ys, h1, h⟩ := bind_ok h
  obtain ⟨a1, h2, h⟩ := bind_ok h
  obtain ⟨a2, h3, h⟩ := bind_ok h
  obtain ⟨a3, h4, h⟩ := bind_ok h
  obtain ⟨a4, h5, h⟩ := bind_ok h
  obtain ⟨a5, h6, h⟩ := bind_ok h
  obtain ⟨a6, h7, h⟩ := bind_ok h
  obtain ⟨a7, h8, h⟩ := bind_ok h
  obtain ⟨a8, h9, h⟩ := bind_ok h
  obtain ⟨a9, h10, h⟩ := bind_ok h
  obtain ⟨a10, h11, h⟩ := bind_ok h
  obtain ⟨a11, h12, h⟩ := bind_ok h
  injection h with hcfg
  exact ⟨ys, h1, by rw [← hcfg], ⟨a1, h2⟩, ⟨a2, h3⟩, ⟨a3, h4⟩, ⟨a4, h5⟩,
    ⟨a5, h6⟩, ⟨a6, h7⟩, ⟨a8, h9⟩⟩

/-- A years-setter failure aborts the whole construction. -/
lemma validate_error_of_setYears {fs : String → Bool} {td sv : String} {cs : Consts}
    {raw : RawConfig} {msg : String} (h : setYears raw.years = .error msg) :
    validate fs td sv cs raw = .error msg := by
  simp [validate, h, Bind.bind, Except.bind]

/-- Successful series setters enforce the length invariant
(`cost_emit` shape). -/
lemma set_cost_emit_ok_length {ys : List ℤ} {d : Option (List ℚ)} {v}
    (h : set_cost_emit ys d = .ok v) {l : List ℚ} (hl : d = some l) :
    l.length = ys.length := by
  subst hl
  by_contra hne
  simp [set_cost_emit, hne] at h

/-- Length invariant for `nem_ret_ratio`. -/
lemma set_nem_ret_ratio_ok_length {ys : List ℤ} {d : Option (List ℚ)} {v}
    (h : set_nem_ret_ratio ys d = .ok v) {l : List ℚ} (hl : d = some l) :
    l.length = ys.length := by
  subst hl
  by_contra hne
  simp [set_nem_ret_ratio, hne] at h

/-- Length invariant for `nem_ret_gwh`. -/
lemma set_nem_ret_gwh_ok_length {ys : List ℤ} {d : Option (List ℚ)} {v}
    (h : set_nem_ret_gwh ys d = .ok v) {l : List ℚ} (hl : d = some l) :
    l.length = ys.length := by
  subst hl
  by_contra hne
  simp [set_nem_ret_gwh, hne] at h

/-- Length invariant for `emitlimit`. -/
lemma set_emitlimit_ok_length {ys : List ℤ} {d : Option (List ℚ)} {v}
    (h : set_emitlimit ys d = .ok v) {l : List ℚ} (hl : d = some l) :
    l.length = ys.length := by
  subst hl
  by_contra hne
  simp [set_emitlimit, hne] at h

/-- Length invariant for `nem_disp_ratio`. -/
lemma set_nem_disp_ratio_ok_length {ys : List ℤ} {d : Option (List ℚ)} {v}
    (h : set_nem_disp_ratio ys d = .ok v) {l : List ℚ} (hl : d = some l) :
    l.length = ys.length := by
  subst hl
  by_contra hne
  simp [set_nem_disp_ratio, hne] at h

/-- Length invariant for `nem_re_disp_ratio`. -/
lemma set_nem_re_disp_ratio_ok_length {ys : List ℤ} {d : Option (List ℚ)} {v}
    (h : set_nem_re_disp_ratio ys d = .ok v) {l : List ℚ} (hl : d = some l) :
    l.length = ys.length := by
  subst hl
  by_contra hne
  simp [set_nem_re_disp_ratio, hne] at h

/-- Length invariant of the per-region check loop. -/
lemma checkRegionSeries_ok_length {ys : List ℤ} {d : List (ℤ × List ℚ)}
    (h : checkRegionSeries ys d = .ok ()) : ∀ p ∈ d, p.2.length = ys.length := by
  induction d with
  | nil => intro p hp; simp at hp
  | cons hd tl ih =>
    obtain ⟨dz, dl⟩ := hd
    rw [checkRegionSeries] at h
    split_ifs at h with h1 h2
    intro p hp
    rcases List.mem_cons.mp hp with rfl | hp'
    · simpa using not_ne_iff.mp h1
    · exact ih h p hp'

/-- Length invariant for every region's series in `region_ret_ratio`. -/
lemma set_region_ret_ratio_ok_length {ys : List ℤ} {d : Option (List (ℤ × List ℚ))} {v}
    (h : set_region_ret_ratio ys d = .ok v) {m : List (ℤ × List ℚ)} (hm : d = some m) :
    ∀ p ∈ m, p.2.length = ys.length := by
  subst hm
  simp only [set_region_ret_ratio] at h
  obtain ⟨u, hu, _⟩ := bind_ok h
  cases u
  exact checkRegionSeries_ok_length hu

/-- C5: a successful construction stores the input years sorted ascending
(as a permutation of the input) with every element in `[2018, 2050]`, and
any input years list containing an element outside that range makes
construction raise before anything else runs. -/
theorem years_validation (fs : String → Bool) (td sv : String) (cs : Consts)
    (raw : RawConfig) :
    (∀ cfg : Config, validate fs td sv cs raw = .ok cfg →
      cfg.years.Sorted (· ≤ ·) ∧ cfg.years.Perm raw.years ∧
      ∀ e ∈ cfg.years, 2018 ≤ e ∧ e ≤ 2050) ∧
    ((∃ e ∈ raw.years, e < 2018 ∨ 2050 < e) →
      ∃ msg, validate fs td sv cs raw = .error msg) := by
  constructor
  · intro cfg h
    obtain ⟨ys, hys, hcfg, _⟩ := validate_ok_inv h
    obtain ⟨hsort, mx, mn, hmx, hmn, hmx50, hmn18⟩ := setYears_ok_inv hys
    subst hcfg
    rw [hsort]
    refine ⟨List.sorted_insertionSort _ _, List.perm_insertionSort _ _, ?_⟩
    intro e he
    have he' : e ∈ raw.years := (List.perm_insertionSort _ _).mem_iff.mp he
    have h1 := (max?_spec hmx).2 e he'
    have h2 := (min?_spec hmn).2 e he'
    omega
  · rintro ⟨e, he, hout⟩
    obtain ⟨msg, hmsg⟩ := setYears_error_of_out_of_range he hout
    exact ⟨msg, validate_error_of_setYears hmsg⟩

/-- Concrete fixtures for the witnesses: an everything-exists file system, a
constants set, and small raw configurations. -/
def fsW : String → Bool := fun _ => true

/-- Witness constant lists. -/
def csW : Consts := ⟨[1], [1], [1], [1], [1], [1], [1], [1], [1], [1]⟩

/-- A minimal valid raw configuration with years `[2022, 2020]`. -/
def rawW : RawConfig :=
  { name := "w", years := [2022, 2020], nem_ret_ratio := none,
    nem_ret_gwh := none, region_ret_ratio := none, emitlimit := none,
    nem_disp_ratio := none, nem_re_disp_ratio := none, discountrate := 0,
    cost_emit := none, description := none, template := "t.dat",
    custom_costs := none, exogenous_capacity := none, cluster := false,
    cluster_max_d := 5, regions := [1], zones := [1], all_tech := [1],
    all_tech_per_zone := [(1, [1])] }

/-- `rawW` with an out-of-range year. -/
def rawBadW : RawConfig := { rawW with years := [2051] }

/-- `rawW` with every optional per-year policy series present (lengths 2). -/
def rawFullW : RawConfig :=
  { rawW with
    nem_ret_ratio := some [0, 1], nem_ret_gwh := some [0, 1],
    region_ret_ratio := some [(1, [0, 1])], emitlimit := some [0, 1],
    nem_disp_ratio := some [0, 1], nem_re_disp_ratio := some [0, 1],
    cost_emit := some [0, 1] }

/-- C5, witness: a config with years `[2022, 2020]` validates and stores
`[2020, 2022]`; a config with year `2051` raises. -/
theorem years_validation_witness :
    (∃ cfg : Config, validate fsW "/tmp/" "cbc" csW rawW = .ok cfg ∧
      cfg.years.Sorted (· ≤ ·) ∧ cfg.years.Perm rawW.years ∧
      ∀ e ∈ cfg.years, 2018 ≤ e ∧ e ≤ 2050) ∧
    (∃ msg, validate fsW "/tmp/" "cbc" csW rawBadW = .error msg) := by
  constructor
  · exact ⟨_, rfl, (years_validation fsW "/tmp/" "cbc" csW rawW).1 _ rfl⟩
  · exact (years_validation fsW "/tmp/" "cbc" csW rawBadW).2
      ⟨2051, by decide, by decide⟩

/-- C10: an empty years list always makes construction raise (Python
`max()` raises on an empty sequence before the range checks), so every
accepted configuration stores a non-empty years list. -/
theorem empty_years_rejected (fs : String → Bool) (td sv : String) (cs : Consts) :
    (∀ raw : RawConfig, raw.years = [] →
      ∃ msg, validate fs td sv cs raw = .error msg) ∧
    (∀ (raw : RawConfig) (cfg : Config), validate fs td sv cs raw = .ok cfg →
      raw.years ≠ [] ∧ cfg.years ≠ []) := by
  constructor
  · intro raw hraw
    refine ⟨"ValueError: max() arg is an empty sequence", validate_error_of_setYears ?_⟩
    rw [setYears, hraw]
    rfl
  · intro raw cfg h
    obtain ⟨ys, hys, hcfg, _⟩ := validate_ok_inv h
    obtain ⟨hsort, mx, mn, hmx, _⟩ := setYears_ok_inv hys
    have hne : raw.years ≠ [] := by
      intro hnil
      rw [hnil] at hmx
      simp at hmx
    refine ⟨hne, ?_⟩
    rw [hcfg, hsort]
    intro hnil
    have := congrArg List.length hnil
    rw [(List.perm_insertionSort (· ≤ ·) raw.years).length_eq] at this
    exact hne (List.length_eq_zero.mp (by simpa using this))

/-- C10, witness: the empty-years config raises; `rawW` is accepted and
stores non-empty years. -/
theorem empty_years_rejected_witness :
    (∃ msg, validate fsW "/tmp/" "cbc" csW { rawW with years := [] } = .error msg) ∧
    ({ rawW with years := [] } : RawConfig).years = [] ∧ rawW.years ≠ [] := by
  refine ⟨?_, rfl, ?_⟩
  · exact (empty_years_rejected fsW "/tmp/" "cbc" csW).1 _ rfl
  · exact ((empty_years_rejected fsW "/tmp/" "cbc" csW).2 rawW _ rfl).1

/-- C6: construction succeeds only if every present optional policy series
has exactly one entry per configured year; equivalently, any present series
whose length differs from the years list makes the construction raise (the
`Except`-valued construction returns no partially validated configuration on
failure). -/
theorem policy_series_length_validation (fs : String → Bool) (td sv : String)
    (cs : Consts) (raw : RawConfig)
    (h : ∃ cfg : Config, validate fs td sv cs raw = .ok cfg) :
    (∀ l, raw.cost_emit = some l → l.length = raw.years.length) ∧
    (∀ l, raw.nem_ret_ratio = some l → l.length = raw.years.length) ∧
    (∀ l, raw.nem_ret_gwh = some l → l.length = raw.years.length) ∧
    (∀ m, raw.region_ret_ratio = some m → ∀ p ∈ m, p.2.length = raw.years.length) ∧
    (∀ l, raw.emitlimit = some l → l.length = raw.years.length) ∧
    (∀ l, raw.nem_disp_ratio = some l → l.length = raw.years.length) ∧
    (∀ l, raw.nem_re_disp_ratio = some l → l.length = raw.years.length) := by
  obtain ⟨cfg, h⟩ := h
  obtain ⟨ys, hys, hcfg, ⟨a1, h1⟩, ⟨a2, h2⟩, ⟨a3, h3⟩, ⟨a4, h4⟩, ⟨a5, h5⟩, ⟨a6, h6⟩,
    ⟨a7, h7⟩⟩ := validate_ok_inv h
  have hlen : ys.length = raw.years.length := by
    rw [(setYears_ok_inv hys).1]
    exact (List.perm_insertionSort (· ≤ ·) raw.years).length_eq
  refine ⟨?_, ?_, ?_, ?_, ?_, ?_, ?_⟩
  · intro l hl; rw [← hlen]; exact set_cost_emit_ok_length h7 hl
  · intro l hl; rw [← hlen]; exact set_nem_ret_ratio_ok_length h1 hl
  · intro l hl; rw [← hlen]; exact set_nem_ret_gwh_ok_length h2 hl
  · intro m hm p hp; rw [← hlen]; exact set_region_ret_ratio_ok_length h3 hm p hp
  · intro l hl; rw [← hlen]; exact set_emitlimit_ok_length h4 hl
  · intro l hl; rw [← hlen]; exact set_nem_disp_ratio_ok_length h5 hl
  · intro l hl; rw [← hlen]; exact set_nem_re_disp_ratio_ok_length h6 hl

/-- C6, witness: `rawFullW` (every series present, lengths 2) validates, so
the theorem reports each series' length equal to `len(years)`. -/
theorem policy_series_length_validation_witness :
    ([(0 : ℚ), 1]).length = rawFullW.years.length :=
  (policy_series_length_validation fsW "/tmp/" "cbc" csW rawFullW ⟨_, rfl⟩).1 _ rfl

/-- A small validated configuration with years `[2020, 2022]`, zone `1` and
technology `1`, used for the exogenous-capacity and carry-forward claims. -/
def cfgCE : Config :=
  { name := "w", years := [2020, 2022], nem_ret_ratio := none,
    nem_ret_gwh := none, region_ret_ratio := none, emitlimit := none,
    nem_disp_ratio := none, nem_re_disp_ratio := none, discountrate := 0,
    cost_emit := none, description := none, template := "t.dat",
    custom_costs := none, exogenous_capacity := some "exo.csv", cluster := false,
    cluster_max_d := 5, regions := [1], zones := [1], all_tech := [1],
    all_tech_per_zone := [(1, [1])], tmpdir := "/tmp/", solver := "cbc",
    fueltech := [(1, [1])], committech := [(1, [1])], regentech := [(1, [1])],
    dispgentech := [(1, [1])], redispgentech := [(1, [1])], hybtech := [(1, [1])],
    gentech := [(1, [1])], stortech := [(1, [1])], retiretech := [(1, [1])] }

/-- A row belongs to the selected exogenous-capacity rows exactly when it is
a table row of one of the four override categories whose tech/zone are
configured and whose year lies in `(pyPrevYear, year]`. -/
lemma mem_exoSelectedRows {cfg : Config} {tbl : List ExoRow} {year : ℤ} {r : ExoRow} :
    r ∈ exoSelectedRows cfg tbl year ↔
      r ∈ tbl ∧ r.name ∈ exoKeywords ∧ r.tech ∈ cfg.all_tech ∧ r.zone ∈ cfg.zones ∧
      pyPrevYear cfg.years year < r.year ∧ r.year ≤ year := by
  simp only [exoSelectedRows, exoFilter, List.mem_flatMap, List.mem_filter,
    Bool.and_eq_true, decide_eq_true_eq, gt_iff_lt]
  constructor
  · rintro ⟨k, hk, hr, ⟨⟨⟨h1, h2⟩, h3⟩, h4⟩, h5⟩
    exact ⟨hr, h3 ▸ hk, h4, h5, h1, h2⟩
  · rintro ⟨hr, hname, h4, h5, h1, h2⟩
    exact ⟨r.name, hname, hr, ⟨⟨⟨h1, h2⟩, rfl⟩, h4⟩, h5⟩

/-- For a non-first year, the previous-year bound used by the source is the
element just before the year's first occurrence in the stored years list. -/
lemma pyPrevYear_of_index_pos {years : List ℤ} {year : ℤ}
    (h : years.indexOf year ≠ 0) (hmem : year ∈ years) :
    pyPrevYear years year = years.getD (years.indexOf year - 1) 0 := by
  have hidx : years.indexOf year < years.length := List.indexOf_lt_length.mpr hmem
  have hn : 1 ≤ years.indexOf year := Nat.one_le_iff_ne_zero.mpr h
  rw [pyPrevYear, pyGet]
  have hnn : ¬((years.indexOf year : ℤ) - 1 < 0) := by omega
  simp only [hnn, if_false, if_neg]
  have htn : ((years.indexOf year : ℤ) - 1).toNat = years.indexOf year - 1 := by omega
  rw [htn, List.getD_eq_getElem?_getD, List.get?_eq_getElem?]

/-- For the first configured year, Python's `Years[index - 1] == Years[-1]`
makes the previous-year bound the LAST configured year. -/
lemma pyPrevYear_of_index_zero {years : List ℤ} {year : ℤ}
    (h : years.indexOf year = 0) (hne : years ≠ []) :
    pyPrevYear years year = years.getLast hne := by
  have hlen : 1 ≤ years.length := by
    cases years with
    | nil => exact absurd rfl hne
    | cons a as => simp
  rw [pyPrevYear, pyGet, h]
  have hneg : ((0 : ℤ) - 1 < 0) := by omega
  simp only [Nat.cast_zero, hneg, if_true, if_pos]
  have hj : ¬((years.length : ℤ) + (0 - 1) < 0) := by omega
  rw [if_neg hj]
  have htn : ((years.length : ℤ) + (0 - 1)).toNat = years.length - 1 := by omega
  rw [htn, List.getLast_eq_getElem, List.get?_eq_getElem?,
    List.getElem?_eq_getElem (by omega)]
  rfl

/-- C2, counterexample: for the FIRST configured year the claim fails.  With
years `[2020, 2022]`, a table row `(gen_cap_exo, tech 1, zone 1, year 2020)`
matches every selection criterion of the claim for year 2020 (category name,
configured tech and zone, year within `(previousYear, 2020]` for any notion
of a year preceding 2020), yet the code selects nothing: Python's
`Years[Years.index(2020) - 1]` is `Years[-1] == 2022`, so the window
`(2022, 2020]` is empty and the emitted block is empty. -/
theorem exogenous_first_year_counterexample :
    cfgCE.years = [2020, 2022] ∧
    "gen_cap_exo" ∈ exoKeywords ∧ (1 : ℤ) ∈ cfgCE.all_tech ∧ (1 : ℤ) ∈ cfgCE.zones ∧
    ((2017 : ℤ) < 2020 ∧ (2020 : ℤ) ≤ 2020) ∧
    (⟨"gen_cap_exo", 1, 1, 2020, 100⟩ : ExoRow) ∉
      exoSelectedRows cfgCE [⟨"gen_cap_exo", 1, 1, 2020, 100⟩] 2020 ∧
    produce_exogenous_capacity cfgCE (some [⟨"gen_cap_exo", 1, 1, 2020, 100⟩]) 2020 = "\n" := by
  with_unfolding_all decide

/-- C2, amended: for every non-first configured year `y`, the selected
exogenous-capacity rows are exactly the table rows in one of the four
override categories with configured tech and zone and year in
`(years[idx-1], y]`, where `idx` is `y`'s first index in the stored years
list; for the first configured year the code's previous-year bound is the
LAST configured year (Python index `-1`), so the window is
`(lastYear, firstYear]`. -/
theorem exogenous_capacity_window (cfg : Config) (tbl : List ExoRow) (year : ℤ)
    (hmem : year ∈ cfg.years) :
    (cfg.years.indexOf year ≠ 0 →
      ∀ r : ExoRow, r ∈ exoSelectedRows cfg tbl year ↔
        (r ∈ tbl ∧ r.name ∈ exoKeywords ∧ r.tech ∈ cfg.all_tech ∧ r.zone ∈ cfg.zones ∧
          cfg.years.getD (cfg.years.indexOf year - 1) 0 < r.year ∧ r.year ≤ year)) ∧
    (∀ (_ : cfg.years.indexOf year = 0) (hne : cfg.years ≠ []),
      ∀ r : ExoRow, r ∈ exoSelectedRows cfg tbl year ↔
        (r ∈ tbl ∧ r.name ∈ exoKeywords ∧ r.tech ∈ cfg.all_tech ∧ r.zone ∈ cfg.zones ∧
          cfg.years.getLast hne < r.year ∧ r.year ≤ year)) := by
  constructor
  · intro hz r
    rw [mem_exoSelectedRows, pyPrevYear_of_index_pos hz hmem]
  · intro hz hne r
    rw [mem_exoSelectedRows, pyPrevYear_of_index_zero hz hne]

set_option maxRecDepth 4000 in
/-- C2, witness: with years `[2020, 2022]`, a matching row with year 2021 is
selected for the non-first year 2022. -/
theorem exogenous_capacity_window_witness :
    (⟨"stor_cap_exo", 1, 1, 2021, 7⟩ : ExoRow) ∈
      exoSelectedRows cfgCE [⟨"stor_cap_exo", 1, 1, 2021, 7⟩] 2022 :=
  ((exogenous_capacity_window cfgCE [⟨"stor_cap_exo", 1, 1, 2021, 7⟩] 2022
      (by decide)).1 (by decide) _).mpr (by with_unfolding_all decide)

/-- A minimal solved-instance fixture for orchestrator witnesses. -/
def instW : Instance :=
  { regions := [1], zones := [1], all_tech := [1], fuel_gen_tech := [],
    retire_gen_tech := [], nobuild_gen_tech := [], hyb_tech := [], stor_tech := [],
    t := [], zones_in_regions := [], gen_tech_in_zones := [],
    fuel_gen_tech_in_zones := [], retire_gen_tech_in_zones := [],
    hyb_tech_in_zones := [], stor_tech_in_zones := [], region_intercons := [],
    zones_per_region := [(1, [1])], gen_tech_per_zone := [(1, [1])],
    fuel_gen_tech_per_zone := [(1, [])], retire_gen_tech_per_zone := [(1, [])],
    hyb_tech_per_zone := [(1, [])], stor_tech_per_zone := [(1, [])],
    intercon_per_region := [(1, [])], cost_gen_build := [], cost_stor_build := [],
    cost_hyb_build := [], cost_fuel := [], fuel_heat_rate := [],
    intercon_prop_factor := [], gen_cap_factor := [], hyb_cap_factor := [],
    gen_build_limit := [], gen_cap_initial := [], stor_cap_initial := [],
    hyb_cap_initial := [], gen_cap_exo := [], stor_cap_exo := [],
    hyb_cap_exo := [], ret_gen_cap_exo := [], region_net_demand := [],
    intercon_trans_limit := [], cost_gen_fom := [], cost_gen_vom := [],
    cost_stor_fom := [], cost_stor_vom := [], cost_hyb_fom := [],
    cost_hyb_vom := [], all_tech_lifetime := [], fixed_charge_rate := [],
    cost_retire := [], stor_rt_eff := [], stor_charge_hours := [],
    hyb_col_mult := [], hyb_charge_hours := [], fuel_emit_rate := [],
    cost_cap_carry_forward := [], cost_unserved := .num 0, cost_emit := .num 0,
    cost_trans := .num 0, all_tech_discount_rate := .num 0,
    year_correction_factor := .num 1, gen_cap_new := [((1, 1), 0)],
    gen_cap_op := [((1, 1), 0)], stor_cap_new := [], stor_cap_op := [],
    hyb_cap_new := [], hyb_cap_op := [], gen_cap_ret := [],
    gen_cap_ret_neg := [], gen_cap_exo_neg := [], gen_disp := [],
    stor_disp := [], stor_charge := [], hyb_disp := [], hyb_charge := [],
    stor_level := [], hyb_level := [], unserved := [], surplus := [],
    intercon_disp := [], ldbalDual := [], Obj := 0, cost_shadow := 0,
    costCapital := fun _ => 0, nem_year_emit_limit := none,
    nem_ret_ratio := none, nem_ret_gwh := none, region_ret_ratio := none,
    nem_disp_ratio := none, nem_re_disp_ratio := none, capsFixed := false }

/-- Deterministic stand-ins for the external model builder, clustering
decomposer and solver, used in witnesses. -/
def extW : Externals :=
  { createInstance := fun _ _ => instW
    clusterRun := fun _ _ => fun _ => 0
    solverSolve := fun i => i }

/-- The carry-forward artifacts written by `solve` are keyed by exactly the
configured years other than `Years[-1]`. -/
lemma solve_carry_keys (cfg : Config) (consts : Consts) (templateLines : List String)
    (ct : Option CustomTable) (et : Option (List ExoRow))
    (cr er : Option (List (String × JValue))) (ext : Externals) :
    (solve cfg consts templateLines ct et cr er ext).carryFiles.map Prod.fst
      = cfg.years.filter (fun y => y != lastYear cfg) := by
  simp only [solve, List.filter_map, List.map_map]
  simp [Function.comp_def]

/-- C4: for every non-first year, the generated carry-forward clause loads
`gen_cap_op<prev>.json` where `prev` is the year just before `year`'s first
occurrence in the stored years list, and a run persists a carry-forward
artifact for exactly the years different from the last configured year. -/
theorem carry_forward_chain (cfg : Config) (consts : Consts) (templateLines : List String)
    (ct : Option CustomTable) (et : Option (List ExoRow))
    (cr er : Option (List (String × JValue))) (ext : Externals) (year : ℤ)
    (hmem : year ∈ cfg.years) (hidx : cfg.years.indexOf year ≠ 0) :
    carryforwardcap cfg year
      = "load '" ++ cfg.tmpdir ++ "gen_cap_op"
        ++ toString (cfg.years.getD (cfg.years.indexOf year - 1) 0)
        ++ ".json' : [zones,all_tech] gen_cap_initial stor_cap_initial hyb_cap_initial;" ∧
    (solve cfg consts templateLines ct et cr er ext).carryFiles.map Prod.fst
      = cfg.years.filter (fun y => y != lastYear cfg) ∧
    lastYear cfg ∉ (solve cfg consts templateLines ct et cr er ext).carryFiles.map Prod.fst ∧
    ∀ y ∈ cfg.years, y ≠ lastYear cfg →
      y ∈ (solve cfg consts templateLines ct et cr er ext).carryFiles.map Prod.fst := by
  refine ⟨?_, solve_carry_keys cfg consts templateLines ct et cr er ext, ?_, ?_⟩
  · rw [carryforwardcap, if_pos hidx, pyPrevYear_of_index_pos hidx hmem]
  · rw [solve_carry_keys]
    simp
  · intro y hy hne
    rw [solve_carry_keys]
    simp [List.mem_filter, hy, hne]

/-- C4, witness: for years `[2020, 2022]`, the 2022 template's carry-forward
clause references `gen_cap_op2020.json` and the persisted carry-forward keys
are exactly `[2020]`. -/
theorem carry_forward_chain_witness :
    carryforwardcap cfgCE 2022
      = "load '" ++ cfgCE.tmpdir ++ "gen_cap_op"
        ++ toString (cfgCE.years.getD (cfgCE.years.indexOf 2022 - 1) 0)
        ++ ".json' : [zones,all_tech] gen_cap_initial stor_cap_initial hyb_cap_initial;" ∧
    (solve cfgCE csW [] none none none none extW).carryFiles.map Prod.fst
      = cfgCE.years.filter (fun y => y != lastYear cfgCE) ∧
    cfgCE.years.filter (fun y => y != lastYear cfgCE) = [2020] := by
  have h := carry_forward_chain cfgCE csW [] none none none none extW 2022
    (by decide) (by decide)
  exact ⟨h.1, h.2.1, by decide⟩

/-- The generated contents before the policy parameter blocks: substituted
template body, custom costs, exogenous capacity and discount rate, in write
order. -/
def tmplCore (cfg : Config) (consts : Consts) (templateLines : List String)
    (customTable : Option CustomTable) (exoTable : Option (List ExoRow))
    (year : ℤ) (test : Bool) : String :=
  let strd1 := "'" ++ fmtDateTime (year - 1) 7 1 0 0 0 ++ "'"
  let strd2 := "'" ++ (if test then fmtDateTime (year - 1) 7 3 23 0 0
                       else fmtDateTime year 6 30 23 0 0) ++ "'"
  let drange := "BETWEEN " ++ strd1 ++ " AND " ++ strd2
  let fcr := "\n#Discount rate for project\n" ++ "param all_tech_discount_rate := "
    ++ pyNumStr cfg.discountrate ++ ";\n"
  let opcap0 := carryforwardcap cfg year
  let prevyear : ℤ := if cfg.years.indexOf year = 0 then 2017 else pyPrevYear cfg.years year
  String.join (templateLines.map (substLine cfg consts opcap0 drange year prevyear))
    ++ produce_custom_costs cfg customTable year
    ++ produce_exogenous_capacity cfg exoTable year
    ++ fcr

/-- The generated file contents decompose into the core followed by the
seven per-year policy parameter blocks (and the capital-cost carry-forward
clause), in write order. -/
lemma generateyeartemplate_blocks (cfg : Config) (consts : Consts)
    (templateLines : List String) (ct : Option CustomTable)
    (et : Option (List ExoRow)) (year : ℤ) (test : Bool) :
    (generateyeartemplate cfg consts templateLines ct et year test).2
      = tmplCore cfg consts templateLines ct et year test
        ++ cemitBlock cfg (cfg.years.indexOf year)
        ++ carry_forward_cap_costs cfg year
        ++ nemRetRatioBlock cfg (cfg.years.indexOf year)
        ++ nemRetGwhBlock cfg (cfg.years.indexOf year)
        ++ regionRetRatioBlock cfg (cfg.years.indexOf year)
        ++ emitLimitBlock cfg (cfg.years.indexOf year)
        ++ nemDispRatioBlock cfg (cfg.years.indexOf year)
        ++ nemReDispRatioBlock cfg (cfg.years.indexOf year) := by
  simp only [generateyeartemplate, tmplCore, String.append_assoc]

/-- A configuration with years `[2030, 2040]` and
`nem_ret_ratio = [0.1, 0.5]` for the claim's concrete scenario. -/
def cfgC3 : Config :=
  { cfgCE with years := [2030, 2040], nem_ret_ratio := some [1/10, 1/2] }

/-- `cfgC3` with every optional per-year policy series present, for the
witness. -/
def cfgC3Full : Config :=
  { cfgC3 with
    cost_emit := some [2, 3], nem_ret_gwh := some [4, 5],
    region_ret_ratio := some [(1, [1/10, 3/10])], emitlimit := some [6, 7],
    nem_disp_ratio := some [0, 1], nem_re_disp_ratio := some [1, 0] }

set_option maxRecDepth 10000 in
/-- C3: for every configured per-year policy series — `cost_emit`,
`nem_ret_ratio`, `nem_ret_gwh`, `region_ret_ratio` (per region),
`emitlimit`, `nem_disp_ratio` and `nem_re_disp_ratio` — the value embedded
in the template for `year` is the series element at the positional index of
`year` in the stored (sorted) years list, not a year-keyed lookup; in
particular, for years `[2030, 2040]` and `nem_ret_ratio = [0.1, 0.5]`, the
2040 template embeds `0.5`. -/
theorem policy_positional_index (cfg : Config) (consts : Consts)
    (templateLines : List String) (ct : Option CustomTable)
    (et : Option (List ExoRow)) (year : ℤ) (test : Bool) :
    (∀ (v : ℚ) (vs : List ℚ), cfg.cost_emit = some (v :: vs) →
      ∃ pre post,
        (generateyeartemplate cfg consts templateLines ct et year test).2
          = pre ++ ("param cost_emit:= "
              ++ pyNumStr ((v :: vs).getD (cfg.years.indexOf year) 0) ++ ";\n") ++ post) ∧
    (∀ (v : ℚ) (vs : List ℚ), cfg.nem_ret_ratio = some (v :: vs) →
      ∃ pre post,
        (generateyeartemplate cfg consts templateLines ct et year test).2
          = pre ++ ("param nem_ret_ratio :="
              ++ pyNumStr ((v :: vs).getD (cfg.years.indexOf year) 0) ++ ";\n") ++ post) ∧
    (∀ (v : ℚ) (vs : List ℚ), cfg.nem_ret_gwh = some (v :: vs) →
      ∃ pre post,
        (generateyeartemplate cfg consts templateLines ct et year test).2
          = pre ++ ("param nem_ret_gwh :="
              ++ pyNumStr ((v :: vs).getD (cfg.years.indexOf year) 0) ++ ";\n") ++ post) ∧
    (∀ (e : ℤ × List ℚ) (es : List (ℤ × List ℚ)), cfg.region_ret_ratio = some (e :: es) →
      ∃ pre post,
        (generateyeartemplate cfg consts templateLines ct et year test).2
          = pre ++ ("param region_ret_ratio := "
              ++ String.intercalate " "
                  ((e :: es).map (fun p =>
                    toString p.1 ++ " " ++ pyNumStr (p.2.getD (cfg.years.indexOf year) 0)))
              ++ ";\n") ++ post) ∧
    (∀ (v : ℚ) (vs : List ℚ), cfg.emitlimit = some (v :: vs) →
      ∃ pre post,
        (generateyeartemplate cfg consts templateLines ct et year test).2
          = pre ++ ("param nem_year_emit_limit := "
              ++ pyNumStr ((v :: vs).getD (cfg.years.indexOf year) 0) ++ ";\n") ++ post) ∧
    (∀ (v : ℚ) (vs : List ℚ), cfg.nem_disp_ratio = some (v :: vs) →
      ∃ pre post,
        (generateyeartemplate cfg consts templateLines ct et year test).2
          = pre ++ ("param nem_disp_ratio := "
              ++ pyNumStr ((v :: vs).getD (cfg.years.indexOf year) 0) ++ ";\n") ++ post) ∧
    (∀ (v : ℚ) (vs : List ℚ), cfg.nem_re_disp_ratio = some (v :: vs) →
      ∃ pre post,
        (generateyeartemplate cfg consts templateLines ct et year test).2
          = pre ++ ("param nem_re_disp_ratio := "
              ++ pyNumStr ((v :: vs).getD (cfg.years.indexOf year) 0) ++ ";\n") ++ post) ∧
    (generateyeartemplate cfgC3 csW [] none none 2040 false).2
      = "\n\n\n#Discount rate for project\nparam all_tech_discount_rate := 0;\n"
        ++ "#Carry forward annualised capital costs\n"
        ++ "load '/tmp/gen_cap_op2030.json' : cost_cap_carry_forward;\n"
        ++ "\n # NEM wide RET\nparam nem_ret_ratio :=0.5;\n" := by
  refine ⟨?_, ?_, ?_, ?_, ?_, ?_, ?_, ?_⟩
  · intro v vs hser
    refine ⟨tmplCore cfg consts templateLines ct et year test
        ++ "#Cost of emissions $/Mhw\n",
      carry_forward_cap_costs cfg year
        ++ nemRetRatioBlock cfg (cfg.years.indexOf year)
        ++ nemRetGwhBlock cfg (cfg.years.indexOf year)
        ++ regionRetRatioBlock cfg (cfg.years.indexOf year)
        ++ emitLimitBlock cfg (cfg.years.indexOf year)
        ++ nemDispRatioBlock cfg (cfg.years.indexOf year)
        ++ nemReDispRatioBlock cfg (cfg.years.indexOf year), ?_⟩
    rw [generateyeartemplate_blocks, cemitBlock, hser]
    simp only [String.append_assoc]
  · intro v vs hser
    refine ⟨tmplCore cfg consts templateLines ct et year test
        ++ cemitBlock cfg (cfg.years.indexOf year)
        ++ carry_forward_cap_costs cfg year
        ++ "\n # NEM wide RET\n",
      nemRetGwhBlock cfg (cfg.years.indexOf year)
        ++ regionRetRatioBlock cfg (cfg.years.indexOf year)
        ++ emitLimitBlock cfg (cfg.years.indexOf year)
        ++ nemDispRatioBlock cfg (cfg.years.indexOf year)
        ++ nemReDispRatioBlock cfg (cfg.years.indexOf year), ?_⟩
    rw [generateyeartemplate_blocks, nemRetRatioBlock, hser]
    simp only [String.append_assoc]
  · intro v vs hser
    refine ⟨tmplCore cfg consts templateLines ct et year test
        ++ cemitBlock cfg (cfg.years.indexOf year)
        ++ carry_forward_cap_costs cfg year
        ++ nemRetRatioBlock cfg (cfg.years.indexOf year)
        ++ "\n # NEM wide RET\n",
      regionRetRatioBlock cfg (cfg.years.indexOf year)
        ++ emitLimitBlock cfg (cfg.years.indexOf year)
        ++ nemDispRatioBlock cfg (cfg.years.indexOf year)
        ++ nemReDispRatioBlock cfg (cfg.years.indexOf year), ?_⟩
    rw [generateyeartemplate_blocks, nemRetGwhBlock, hser]
    simp only [String.append_assoc]
  · intro e es hser
    refine ⟨tmplCore cfg consts templateLines ct et year test
        ++ cemitBlock cfg (cfg.years.indexOf year)
        ++ carry_forward_cap_costs cfg year
        ++ nemRetRatioBlock cfg (cfg.years.indexOf year)
        ++ nemRetGwhBlock cfg (cfg.years.indexOf year)
        ++ "\n #Regional based RET\n",
      emitLimitBlock cfg (cfg.years.indexOf year)
        ++ nemDispRatioBlock cfg (cfg.years.indexOf year)
        ++ nemReDispRatioBlock cfg (cfg.years.indexOf year), ?_⟩
    rw [generateyeartemplate_blocks, regionRetRatioBlock, hser]
    simp only [String.append_assoc]
  · intro v vs hser
    refine ⟨tmplCore cfg consts templateLines ct et year test
        ++ cemitBlock cfg (cfg.years.indexOf year)
        ++ carry_forward_cap_costs cfg year
        ++ nemRetRatioBlock cfg (cfg.years.indexOf year)
        ++ nemRetGwhBlock cfg (cfg.years.indexOf year)
        ++ regionRetRatioBlock cfg (cfg.years.indexOf year)
        ++ "\n #NEM wide emission limit (in GT)\n",
      nemDispRatioBlock cfg (cfg.years.indexOf year)
        ++ nemReDispRatioBlock cfg (cfg.years.indexOf year), ?_⟩
    rw [generateyeartemplate_blocks, emitLimitBlock, hser]
    simp only [String.append_assoc]
  · intro v vs hser
    refine ⟨tmplCore cfg consts templateLines ct et year test
        ++ cemitBlock cfg (cfg.years.indexOf year)
        ++ carry_forward_cap_costs cfg year
        ++ nemRetRatioBlock cfg (cfg.years.indexOf year)
        ++ nemRetGwhBlock cfg (cfg.years.indexOf year)
        ++ regionRetRatioBlock cfg (cfg.years.indexOf year)
        ++ emitLimitBlock cfg (cfg.years.indexOf year)
        ++ "\n #NEM wide minimum generation ratio from dispatchable tech\n",
      nemReDispRatioBlock cfg (cfg.years.indexOf year), ?_⟩
    rw [generateyeartemplate_blocks, nemDispRatioBlock, hser]
    simp only [String.append_assoc]
  · intro v vs hser
    refine ⟨tmplCore cfg consts templateLines ct et year test
        ++ cemitBlock cfg (cfg.years.indexOf year)
        ++ carry_forward_cap_costs cfg year
        ++ nemRetRatioBlock cfg (cfg.years.indexOf year)
        ++ nemRetGwhBlock cfg (cfg.years.indexOf year)
        ++ regionRetRatioBlock cfg (cfg.years.indexOf year)
        ++ emitLimitBlock cfg (cfg.years.indexOf year)
        ++ nemDispRatioBlock cfg (cfg.years.indexOf year)
        ++ "\n #NEM wide minimum generation ratio from dispatchable tech\n",
      "", ?_⟩
    rw [generateyeartemplate_blocks, nemReDispRatioBlock, hser]
    simp only [String.append_assoc, String.append_empty]
  · with_unfolding_all decide

/-- C3, witness: the general theorem instantiated at a concrete
configuration with all seven series present, years `[2030, 2040]` and
year 2040 (each embedded value is its series' element at index 1). -/
theorem policy_positional_index_witness :
    (∃ pre post, (generateyeartemplate cfgC3Full csW [] none none 2040 false).2
      = pre ++ ("param cost_emit:= "
          ++ pyNumStr (([2, 3] : List ℚ).getD (cfgC3Full.years.indexOf 2040) 0)
          ++ ";\n") ++ post) ∧
    (∃ pre post, (generateyeartemplate cfgC3Full csW [] none none 2040 false).2
      = pre ++ ("param nem_ret_ratio :="
          ++ pyNumStr (([1/10, 1/2] : List ℚ).getD (cfgC3Full.years.indexOf 2040) 0)
          ++ ";\n") ++ post) ∧
    (∃ pre post, (generateyeartemplate cfgC3Full csW [] none none 2040 false).2
      = pre ++ ("param nem_ret_gwh :="
          ++ pyNumStr (([4, 5] : List ℚ).getD (cfgC3Full.years.indexOf 2040) 0)
          ++ ";\n") ++ post) ∧
    (∃ pre post, (generateyeartemplate cfgC3Full csW [] none none 2040 false).2
      = pre ++ ("param region_ret_ratio := "
          ++ String.intercalate " "
              (([(1, [1/10, 3/10])] : List (ℤ × List ℚ)).map (fun p =>
                toString p.1 ++ " " ++ pyNumStr (p.2.getD (cfgC3Full.years.indexOf 2040) 0)))
          ++ ";\n") ++ post) ∧
    (∃ pre post, (generateyeartemplate cfgC3Full csW [] none none 2040 false).2
      = pre ++ ("param nem_year_emit_limit := "
          ++ pyNumStr (([6, 7] : List ℚ).getD (cfgC3Full.years.indexOf 2040) 0)
          ++ ";\n") ++ post) ∧
    (∃ pre post, (generateyeartemplate cfgC3Full csW [] none none 2040 false).2
      = pre ++ ("param nem_disp_ratio := "
          ++ pyNumStr (([0, 1] : List ℚ).getD (cfgC3Full.years.indexOf 2040) 0)
          ++ ";\n") ++ post) ∧
    (∃ pre post, (generateyeartemplate cfgC3Full csW [] none none 2040 false).2
      = pre ++ ("param nem_re_disp_ratio := "
          ++ pyNumStr (([1, 0] : List ℚ).getD (cfgC3Full.years.indexOf 2040) 0)
          ++ ";\n") ++ post) :=
  ⟨(policy_positional_index cfgC3Full csW [] none none 2040 false).1 2 [3] rfl,
   (policy_positional_index cfgC3Full csW [] none none 2040 false).2.1 (1/10) [1/2] rfl,
   (policy_positional_index cfgC3Full csW [] none none 2040 false).2.2.1 4 [5] rfl,
   (policy_positional_index cfgC3Full csW [] none none 2040 false).2.2.2.1
     (1, [1/10, 3/10]) [] rfl,
   (policy_positional_index cfgC3Full csW [] none none 2040 false).2.2.2.2.1 6 [7] rfl,
   (policy_positional_index cfgC3Full csW [] none none 2040 false).2.2.2.2.2.1 0 [1] rfl,
   (policy_positional_index cfgC3Full csW [] none none 2040 false).2.2.2.2.2.2.1 1 [0] rfl⟩

/-- C8: template generation is deterministic.  `generateyeartemplate` is a
pure function of the configuration contents, the constant classification
lists, the template file contents, the override-table contents, the year and
the test flag (the prior carry-forward state enters only through the
`tmpdir`-keyed artifact path, which is part of the configuration): two runs
whose inputs agree field by field produce byte-identical artifacts (same
file name, same contents). -/
theorem template_determinism (cfg1 cfg2 : Config) (consts1 consts2 : Consts)
    (tl1 tl2 : List String) (ct1 ct2 : Option CustomTable)
    (et1 et2 : Option (List ExoRow)) (year : ℤ) (test : Bool)
    (h1 : cfg1.name = cfg2.name) (h2 : cfg1.years = cfg2.years)
    (h3 : cfg1.nem_ret_ratio = cfg2.nem_ret_ratio)
    (h4 : cfg1.nem_ret_gwh = cfg2.nem_ret_gwh)
    (h5 : cfg1.region_ret_ratio = cfg2.region_ret_ratio)
    (h6 : cfg1.emitlimit = cfg2.emitlimit)
    (h7 : cfg1.nem_disp_ratio = cfg2.nem_disp_ratio)
    (h8 : cfg1.nem_re_disp_ratio = cfg2.nem_re_disp_ratio)
    (h9 : cfg1.discountrate = cfg2.discountrate)
    (h10 : cfg1.cost_emit = cfg2.cost_emit)
    (h11 : cfg1.description = cfg2.description)
    (h12 : cfg1.template = cfg2.template)
    (h13 : cfg1.custom_costs = cfg2.custom_costs)
    (h14 : cfg1.exogenous_capacity = cfg2.exogenous_capacity)
    (h15 : cfg1.cluster = cfg2.cluster)
    (h16 : cfg1.cluster_max_d = cfg2.cluster_max_d)
    (h17 : cfg1.regions = cfg2.regions) (h18 : cfg1.zones = cfg2.zones)
    (h19 : cfg1.all_tech = cfg2.all_tech)
    (h20 : cfg1.all_tech_per_zone = cfg2.all_tech_per_zone)
    (h21 : cfg1.tmpdir = cfg2.tmpdir) (h22 : cfg1.solver = cfg2.solver)
    (h23 : cfg1.fueltech = cfg2.fueltech) (h24 : cfg1.committech = cfg2.committech)
    (h25 : cfg1.regentech = cfg2.regentech)
    (h26 : cfg1.dispgentech = cfg2.dispgentech)
    (h27 : cfg1.redispgentech = cfg2.redispgentech)
    (h28 : cfg1.hybtech = cfg2.hybtech) (h29 : cfg1.gentech = cfg2.gentech)
    (h30 : cfg1.stortech = cfg2.stortech) (h31 : cfg1.retiretech = cfg2.retiretech)
    (hc : consts1 = consts2) (htl : tl1 = tl2) (hct : ct1 = ct2) (het : et1 = et2) :
    generateyeartemplate cfg1 consts1 tl1 ct1 et1 year test
      = generateyeartemplate cfg2 consts2 tl2 ct2 et2 year test := by
  have hcfg : cfg1 = cfg2 := by
    cases cfg1
    cases cfg2
    simp_all
  rw [hcfg, hc, htl, hct, het]

/-- C8, witness: two runs on the concrete fixture agree. -/
theorem template_determinism_witness :
    generateyeartemplate cfgCE csW ["[regions]\n"] none none 2022 false
      = generateyeartemplate cfgCE csW ["[regions]\n"] none none 2022 false :=
  template_determinism cfgCE cfgCE csW csW ["[regions]\n"] ["[regions]\n"]
    none none none none 2022 false rfl rfl rfl rfl rfl rfl rfl rfl rfl rfl rfl
    rfl rfl rfl rfl rfl rfl rfl rfl rfl rfl rfl rfl rfl rfl rfl rfl rfl rfl
    rfl rfl rfl rfl rfl rfl

/-- `dict.update` with a single fresh key appends it. -/
lemma pyUpdate_fresh (d : List (String × JValue)) (k : String) (v : JValue)
    (h : d.any (fun q => q.1 == k) = false) :
    pyUpdate d [(k, v)] = d ++ [(k, v)] := by
  simp [pyUpdate, h]

/-- `jsonify` always produces exactly the five schema keys at top level. -/
lemma jsonify_keys (inst : Instance) :
    jKeys (jsonify inst) = ["sets", "params", "vars", "duals", "objective_value"] := rfl

/-- C7: for a two-year scenario `[2020, 2022]` with no optional policies and
clustering disabled, a full run produces a final report whose top-level keys
are exactly `meta`, `"2020"`, `"2022"`; its `meta` block stores
`Years == [2020, 2022]`; and each year-keyed value carries exactly the five
schema keys `sets, params, vars, duals, objective_value`. -/
theorem final_report_schema (cfg : Config) (consts : Consts) (tl : List String)
    (ct : Option CustomTable) (et : Option (List ExoRow))
    (cr er : Option (List (String × JValue))) (ext : Externals)
    (hyears : cfg.years = [2020, 2022]) (_hcl : cfg.cluster = false)
    (_hce : cfg.cost_emit = none) (_hnrr : cfg.nem_ret_ratio = none)
    (_hnrg : cfg.nem_ret_gwh = none) (_hrrr : cfg.region_ret_ratio = none)
    (_hel : cfg.emitlimit = none) (_hndr : cfg.nem_disp_ratio = none)
    (_hnrdr : cfg.nem_re_disp_ratio = none) :
    jKeys (solve cfg consts tl ct et cr er ext).finalReport
      = ["meta", "2020", "2022"] ∧
    (∃ meta, jLookup (solve cfg consts tl ct et cr er ext).finalReport "meta" = some meta ∧
      jLookup meta "Years" = some (.arr [jInt 2020, jInt 2022])) ∧
    ∀ ystr ∈ (["2020", "2022"] : List String),
      ∃ v, jLookup (solve cfg consts tl ct et cr er ext).finalReport ystr = some v ∧
        jKeys v = ["sets", "params", "vars", "duals", "objective_value"] := by
  have hfr : (solve cfg consts tl ct et cr er ext).finalReport
      = .obj [("meta", .obj (metaFields cfg cr er)),
              ("2020", jsonify (runYear cfg consts tl ct et ext 2020)),
              ("2022", jsonify (runYear cfg consts tl ct et ext 2022))] := by
    simp only [solve, mergejsonyears, hyears]
    rfl
  refine ⟨?_, ?_, ?_⟩
  · rw [hfr]
    rfl
  · refine ⟨.obj (metaFields cfg cr er), ?_, ?_⟩
    · rw [hfr]
      rfl
    · simp only [metaFields, hyears, jLookup]
      rfl
  · intro ystr hy
    rcases List.mem_cons.mp hy with rfl | hy2
    · exact ⟨jsonify (runYear cfg consts tl ct et ext 2020),
        by rw [hfr]; rfl, jsonify_keys _⟩
    rcases List.mem_cons.mp hy2 with rfl | hy3
    · exact ⟨jsonify (runYear cfg consts tl ct et ext 2022),
        by rw [hfr]; rfl, jsonify_keys _⟩
    · exact absurd hy3 (by simp)

/-- C7, witness: the concrete two-year fixture run end to end. -/
theorem final_report_schema_witness :
    jKeys (solve cfgCE csW [] none none none none extW).finalReport
      = ["meta", "2020", "2022"] :=
  (final_report_schema cfgCE csW [] none none none none extW
    rfl rfl rfl rfl rfl rfl rfl rfl rfl).1

end OpenCEM
